import Mathlib

/-
Verification of the Planner repository's bidirectional sync engine.

Shallow embedding conventions:
* UTC instants are modelled as `Nat` (seconds).  `datetime` comparison in
  Python is the order on `Nat`; RFC3339 serialisation round-trips through
  the stored representation, so a timestamp written to the token file is
  kept as `Json.num` and parsed back as the same `Nat`.
* Optional Python values are `Option`; Python truthiness of a value is made
  explicit at each use site (`jtruthy`, `truthyS`, ...).
* Code that raises is modelled with explicit outcome types; the state
  mutations performed before a raise are kept (Python exceptions do not
  roll back prior writes).
-/

namespace Planner

/-- A JSON value as stored in the sync-token file (`sync_token_storage.py`).
Timestamps are serialised by `to_rfc3339_utc`, modelled here as `Json.num`
of the abstract instant. -/
inductive Json where
  | null
  | str (s : String)
  | num (n : Nat)
  | obj (entries : List (String × Json))
deriving Repr

/-- A Python dict of JSON values, with insertion order kept (association list). -/
abbrev JDict := List (String × Json)

/-- `d.get(k)` on a Python dict: the first (unique) binding of `k`. -/
def dget (d : JDict) (k : String) : Option Json :=
  match d with
  | [] => none
  | (k2, v) :: rest => if k2 = k then some v else dget rest k

/-- `d[k] = v` on a Python dict: replace the binding in place, else append. -/
def dset (d : JDict) (k : String) (v : Json) : JDict :=
  match d with
  | [] => [(k, v)]
  | (k2, v2) :: rest => if k2 = k then (k2, v) :: rest else (k2, v2) :: dset rest k v

/-- `d.pop(k, None)` on a Python dict: remove the binding of `k`. -/
def dpop (d : JDict) (k : String) : JDict :=
  match d with
  | [] => []
  | (k2, v) :: rest => if k2 = k then dpop rest k else (k2, v) :: dpop rest k

/-- `k in d` on a Python dict. -/
def dmem (d : JDict) (k : String) : Bool :=
  (dget d k).isSome

/-- Python truthiness of a JSON value. -/
def jtruthy : Json → Bool
  | .null => false
  | .str s => s ≠ ""
  | .num n => n ≠ 0
  | .obj kvs => !kvs.isEmpty

/-- Python `str(...)` of a JSON value as far as the token storage uses it. -/
def jstr : Json → String
  | .str s => s
  | .num n => toString n
  | .null => "None"
  | .obj _ => ""

/-- Python truthiness of an optional string. -/
def truthyS : Option String → Bool
  | none => false
  | some s => s ≠ ""

/-- The state of the sync-token file: missing, unparseable JSON, or a value. -/
inductive FileState where
  | missing
  | corrupt
  | content (j : Json)
deriving Repr

def kCalendar : String := "calendar"
def kSyncToken : String := "syncToken"
def kLastPullAt : String := "lastPullAt"
def kTasks : String := "tasks"
def kUpdatedMin : String := "updatedMin"
def kLastPushAt : String := "lastPushAt"

/-- `SyncTokenStorage._load`: a missing file (`FileNotFoundError`) and an
unparseable file (`JSONDecodeError`) both give `{}`; a bare string is the
legacy format and is wrapped; a dict is returned as is; anything else `{}`. -/
def load : FileState → JDict
  | .missing => []
  | .corrupt => []
  | .content (.str s) => [(kCalendar, Json.obj [(kSyncToken, Json.str s)])]
  | .content (.obj kvs) => kvs
  | .content _ => []

/-- `_parse_datetime` applied to a value read from the file: falsy values
(`None`, `""`) give `None`; a stored instant parses back to itself. -/
def parse_stored_datetime (v : Option Json) : Option Nat :=
  match v with
  | some (Json.num n) => if n ≠ 0 then some n else none
  | some _ => none
  | none => none

/-- `SyncTokenStorage.get_calendar_token`. -/
def get_calendar_token (f : FileState) : Option String :=
  let data := load f
  let viaCalendar : Option String :=
    match dget data kCalendar with
    | some (Json.obj cal) =>
      match dget cal kSyncToken with
      | some tok => if jtruthy tok then some (jstr tok) else none
      | none => none
    | _ => none
  match viaCalendar with
  | some t => some t
  | none =>
    match dget data kSyncToken with
    | some v => some (jstr v)
    | none => none

/-- `SyncTokenStorage.set_calendar_token`. -/
def set_calendar_token (f : FileState) (token : String) : FileState :=
  let data := load f
  match dget data kCalendar with
  | some (Json.obj cal) =>
    .content (.obj (dset data kCalendar (.obj (dset cal kSyncToken (.str token)))))
  | some _ =>
    .content (.obj (dset data kCalendar (.obj [(kSyncToken, Json.str token)])))
  | none =>
    .content (.obj (dset data kCalendar (.obj [(kSyncToken, Json.str token)])))

/-- First step of `SyncTokenStorage.clear_calendar_token`: pop `syncToken`
from the `calendar` sub-dict when that is a dict holding one. -/
def clear_calendar_step1 (data : JDict) : JDict :=
  match dget data kCalendar with
  | some (Json.obj cal) =>
    if dmem cal kSyncToken then dset data kCalendar (.obj (dpop cal kSyncToken)) else data
  | _ => data

/-- Second step of `clear_calendar_token`: pop the legacy top-level
`syncToken`. -/
def clear_calendar_step2 (data : JDict) : JDict :=
  if dmem data kSyncToken then dpop data kSyncToken else data

/-- `SyncTokenStorage.clear_calendar_token`: pop `syncToken` from the
`calendar` sub-dict when present, pop the legacy top-level `syncToken`,
save the rest unchanged. -/
def clear_calendar_token (f : FileState) : FileState :=
  .content (.obj (clear_calendar_step2 (clear_calendar_step1 (load f))))

/-- `SyncTokenStorage.set_calendar_pull_timestamp`. -/
def set_calendar_pull_timestamp (f : FileState) (now : Nat) : FileState :=
  let data := load f
  match dget data kCalendar with
  | some (Json.obj cal) =>
    .content (.obj (dset data kCalendar (.obj (dset cal kLastPullAt (.num now)))))
  | some _ => .content (.obj data)
  | none =>
    .content (.obj (dset data kCalendar (.obj [(kLastPullAt, Json.num now)])))

/-- `SyncTokenStorage.get_calendar_pull_timestamp`. -/
def get_calendar_pull_timestamp (f : FileState) : Option Nat :=
  let data := load f
  match dget data kCalendar with
  | some (Json.obj cal) => parse_stored_datetime (dget cal kLastPullAt)
  | some _ => none
  | none => none

/-- `SyncTokenStorage.get_tasks_updated_min`. -/
def get_tasks_updated_min (f : FileState) : Option Nat :=
  let data := load f
  match dget data kTasks with
  | some (Json.obj tasks) => parse_stored_datetime (dget tasks kUpdatedMin)
  | some _ => none
  | none => none

/-- `SyncTokenStorage.set_tasks_updated_min`. -/
def set_tasks_updated_min (f : FileState) (value : Option Nat) : FileState :=
  let data := load f
  let v : Json := match value with | some n => .num n | none => .null
  match dget data kTasks with
  | some (Json.obj tasks) =>
    .content (.obj (dset data kTasks (.obj (dset tasks kUpdatedMin v))))
  | some _ => .content (.obj data)
  | none =>
    .content (.obj (dset data kTasks (.obj [(kUpdatedMin, v)])))

/-- `SyncTokenStorage.set_tasks_pull_timestamp`. -/
def set_tasks_pull_timestamp (f : FileState) (now : Nat) : FileState :=
  let data := load f
  match dget data kTasks with
  | some (Json.obj tasks) =>
    .content (.obj (dset data kTasks (.obj (dset tasks kLastPullAt (.num now)))))
  | some _ => .content (.obj data)
  | none =>
    .content (.obj (dset data kTasks (.obj [(kLastPullAt, Json.num now)])))

/-- `SyncTokenStorage.get_tasks_pull_timestamp`. -/
def get_tasks_pull_timestamp (f : FileState) : Option Nat :=
  let data := load f
  match dget data kTasks with
  | some (Json.obj tasks) => parse_stored_datetime (dget tasks kLastPullAt)
  | some _ => none
  | none => none

/-- `SyncTokenStorage.set_last_push_timestamp`. -/
def set_last_push_timestamp (f : FileState) (now : Nat) : FileState :=
  .content (.obj (dset (load f) kLastPushAt (.num now)))

/-- `SyncTokenStorage.get_last_push_timestamp`. -/
def get_last_push_timestamp (f : FileState) : Option Nat :=
  parse_stored_datetime (dget (load f) kLastPushAt)

/-- A local `Task` row (`models/task.py`). `updated_at` is the authoritative
local revision marker. -/
structure Task where
  id : Nat
  title : String
  notes : Option String
  start : Option Nat
  duration_minutes : Option Nat
  priority : Int
  status : String
  gcal_event_id : Option String
  gcal_etag : Option String
  gcal_updated : Option Nat
  gtasks_id : Option String
  gtasks_updated : Option Nat
  created_at : Nat
  updated_at : Nat
deriving Repr, DecidableEq

/-- `sync_service._is_scheduled`: `bool(task.start and task.duration_minutes)`;
a zero duration is falsy in Python. -/
def is_scheduled (t : Task) : Bool :=
  t.start.isSome && (match t.duration_minutes with | some d => d ≠ 0 | none => false)

/-- `TaskService.get`: lookup by primary key. -/
def get_task (repo : List Task) (i : Nat) : Option Task :=
  repo.find? (fun t => t.id == i)

/-- `TaskService.get_by_event_id`: first task with this `gcal_event_id`
(falsy ids give `None`). -/
def get_by_event_id (repo : List Task) (eid : String) : Option Task :=
  if eid = "" then none
  else repo.find? (fun t => t.gcal_event_id == some eid)

/-- `TaskService.get_by_gtasks_id`. -/
def get_by_gtasks_id (repo : List Task) (gid : String) : Option Task :=
  if gid = "" then none
  else repo.find? (fun t => t.gtasks_id == some gid)

/-- `TaskService.update_from_sync`: apply the keyword fields (`fields`) to the
row, then set `updated_at` to the given instant or to `utc_now()`.  Returns
the updated repository and the refreshed row. -/
def update_from_sync (repo : List Task) (i : Nat) (now : Nat)
    (fields : Task → Task) (updated_at : Option Nat) : List Task × Option Task :=
  let touch : Task → Task := fun t =>
    let t2 := fields t
    { t2 with updated_at := updated_at.getD now }
  match get_task repo i with
  | none => (repo, none)
  | some t =>
    (repo.map (fun u => if u.id == i then touch u else u), some (touch t))

/-- The fresh primary key the database hands `create_from_sync`. -/
def fresh_id (repo : List Task) : Nat :=
  (repo.map Task.id).foldr max 0 + 1

/-- The keyword arguments of `TaskService.create_from_sync`. -/
structure CreateFields where
  title : String
  notes : Option String
  start : Option Nat
  duration_minutes : Option Nat
  priority : Int
  status : Option String
  gcal_event_id : Option String
  gcal_etag : Option String
  gcal_updated : Option Nat
  gtasks_id : Option String
  gtasks_updated : Option Nat
deriving Repr

def defaultTaskTitle : String := "Задача"

/-- `TaskService.create_from_sync`. -/
def create_from_sync (repo : List Task) (now : Nat) (f : CreateFields) : List Task :=
  let title := if f.title.trim = "" then defaultTaskTitle else f.title.trim
  let t : Task :=
    { id := fresh_id repo
      title := title
      notes := f.notes
      start := f.start
      duration_minutes := if f.start.isNone then none else f.duration_minutes
      priority := f.priority
      status := f.status.getD "todo"
      gcal_event_id := f.gcal_event_id
      gcal_etag := f.gcal_etag
      gcal_updated := f.gcal_updated
      gtasks_id := f.gtasks_id
      gtasks_updated := f.gtasks_updated
      created_at := now
      updated_at := now }
  repo ++ [t]

/-- `TaskService.delete_from_sync` (a hard delete of the row, `emit=False`). -/
def delete_from_sync (repo : List Task) (i : Nat) : List Task :=
  repo.filter (fun t => t.id ≠ i)

/-- A row of the pending-operations table (`models/pending_op.py` together
with the decoded payload of `PendingOpsQueue.due`). -/
structure PendingOp where
  id : Nat
  op : String
  task_id : Nat
  eventId : Option String
  taskId : Option String
  attempts : Nat
  last_error : Option String
  created_at : Nat
  next_try_at : Nat
deriving Repr, DecidableEq

def opGcalCreate : String := "gcal_create"
def opGcalUpdate : String := "gcal_update"
def opGcalDelete : String := "gcal_delete"
def opGtasksCreate : String := "gtasks_create"
def opGtasksUpdate : String := "gtasks_update"
def opGtasksDelete : String := "gtasks_delete"

/-- `pending_ops_queue.VALID_OPS`. -/
def VALID_OPS : List String :=
  [opGcalCreate, opGcalUpdate, opGcalDelete, opGtasksCreate, opGtasksUpdate, opGtasksDelete]

/-- `pending_ops_queue._next_try`: `now + min(30, 2 ** max(attempts, 0))`. -/
def next_try (now : Nat) (attempts : Nat) : Nat :=
  now + min 30 (2 ^ max attempts 0)

/-- The durable queue plus the autoincrement counter of the `PendingOp` table. -/
structure QueueState where
  ops : List PendingOp
  next_id : Nat
deriving Repr

/-- The JSON payload handed to `PendingOpsQueue.enqueue`. -/
structure Payload where
  eventId : Option String
  taskId : Option String
deriving Repr

def emptyPayload : Payload := { eventId := none, taskId := none }

/-- `PendingOpsQueue.enqueue`: a new row with `next_try_at = now`; an
unrecognised op kind raises `ValueError` (modelled as `none`). -/
def enqueue (q : QueueState) (now : Nat) (op : String) (task_id : Nat)
    (payload : Payload) : Option QueueState :=
  if op ∈ VALID_OPS then
    some
      { ops := q.ops ++
          [{ id := q.next_id, op := op, task_id := task_id,
             eventId := payload.eventId, taskId := payload.taskId,
             attempts := 0, last_error := none,
             created_at := now, next_try_at := now }]
        next_id := q.next_id + 1 }
  else none

/-- `PendingOpsQueue.requeue`: increment `attempts`, truncate the error to
1000 characters, recompute `next_try_at` from the incremented count.  A
missing row is left alone; no row is ever deleted. -/
def requeue (q : QueueState) (now : Nat) (op_id : Nat) (error : String) : QueueState :=
  { q with ops := q.ops.map (fun r =>
      if r.id == op_id then
        { r with attempts := r.attempts + 1,
                 last_error := some (error.take 1000),
                 next_try_at := next_try now (r.attempts + 1) }
      else r) }

/-- `PendingOpsQueue.remove`: delete the row on success. -/
def remove (q : QueueState) (op_id : Nat) : QueueState :=
  { q with ops := q.ops.filter (fun r => r.id ≠ op_id) }

/-- `PendingOpsQueue.due`: the rows with `next_try_at <= now`, oldest due
first, capped at `limit`. -/
def due (q : QueueState) (now : Nat) (limit : Nat) : List PendingOp :=
  ((q.ops.filter (fun r => r.next_try_at ≤ now)).mergeSort
    (fun a b => a.next_try_at ≤ b.next_try_at)).take limit

/-- `PendingOpsQueue.count`. -/
def queue_count (q : QueueState) : Nat :=
  q.ops.length

/-- The engine's whole persisted state: local task rows, the pending-ops
queue, and the sync-token file. -/
structure EngineState where
  repo : List Task
  queue : QueueState
  store : FileState

/-- `enqueue` at a call site of the engine: every op kind the engine passes
is in `VALID_OPS`, so the `ValueError` branch is unreachable there. -/
def enqueueOk (q : QueueState) (now : Nat) (op : String) (task_id : Nat)
    (payload : Payload) : QueueState :=
  (enqueue q now op task_id payload).getD q

/-- A calendar event as `_apply_calendar_event` consumes it.  The helpers
`event_updated` / `extract_event_times` / `extract_notes` that
`sync_service.py` imports are absent from the repository's files, so the
event carries their results as pre-extracted fields. -/
structure GEvent where
  id : Option String
  status : Option String
  summary : Option String
  etag : Option String
  updated : Option Nat
  startTime : Option Nat
  endTime : Option Nat
  notes : String
deriving Repr

/-- A Google Tasks entry as `_apply_task_entry` consumes it (`updated` and
`due` already parsed from RFC3339, `deleted` the truthiness of the field). -/
structure GTaskItem where
  id : Option String
  deleted : Bool
  status : Option String
  updated : Option Nat
  title : Option String
  notes : Option String
  due : Option Nat
  etag : Option String
deriving Repr

/-- `x or default` on an optional string (Python truthiness). -/
def py_or_str (s : Option String) (d : String) : String :=
  match s with
  | some s2 => if s2 = "" then d else s2
  | none => d

/-- `x or None` on a string. -/
def str_or_none (s : String) : Option String :=
  if s = "" then none else some s

/-- `x or None` on an optional string. -/
def py_or_none (s : Option String) : Option String :=
  match s with
  | some s2 => if s2 = "" then none else some s2
  | none => none

/-- `a or b` on optional strings (Python truthiness). -/
def py_or_opt (a b : Option String) : Option String :=
  if truthyS a then a else b

def defaultEventTitle : String := "Без названия"

/-- `sync_service._duration_minutes`: positive whole minutes between start
and end, else `None`. -/
def duration_minutes_of (s? e? : Option Nat) : Option Nat :=
  match s?, e? with
  | some s, some e =>
    if s < e then
      let m := (e - s) / 60
      if m > 0 then some m else none
    else none
  | _, _ => none

/-- `replace(hour=0, minute=0, second=0, microsecond=0)` on a UTC instant. -/
def day_floor (n : Nat) : Nat :=
  n / 86400 * 86400

/-- `sync_service._due_datetime`. -/
def due_datetime (t : Task) : Option Nat :=
  t.start.map day_floor

/-- `SyncService._queue_calendar_sync`. -/
def queue_calendar_sync (now : Nat) (t : Task) (q : QueueState) : QueueState :=
  if truthyS t.gcal_event_id then
    enqueueOk q now opGcalUpdate t.id { eventId := t.gcal_event_id, taskId := none }
  else
    enqueueOk q now opGcalCreate t.id emptyPayload

/-- `SyncService._queue_tasks_sync`. -/
def queue_tasks_sync (now : Nat) (t? : Option Task) (q : QueueState) : QueueState :=
  match t? with
  | none => q
  | some t =>
    if truthyS t.gtasks_id then
      enqueueOk q now opGtasksUpdate t.id { eventId := none, taskId := t.gtasks_id }
    else
      enqueueOk q now opGtasksCreate t.id emptyPayload

/-- `SyncService._ensure_calendar_delete`. -/
def ensure_calendar_delete (now : Nat) (t : Task) (q : QueueState) : QueueState :=
  if truthyS t.gcal_event_id then
    enqueueOk q now opGcalDelete t.id { eventId := t.gcal_event_id, taskId := none }
  else q

/-- `SyncService._ensure_tasks_delete`. -/
def ensure_tasks_delete (now : Nat) (t : Task) (q : QueueState) : QueueState :=
  if truthyS t.gtasks_id then
    enqueueOk q now opGtasksDelete t.id { eventId := none, taskId := t.gtasks_id }
  else q

/-- `known_remote and remote_updated <= known_remote`: the idempotence guard
of the pull-merge (skip when the remote revision is not newer than the last
known remote revision). -/
def not_newer_than_known (remote : Nat) (known : Option Nat) : Bool :=
  match known with
  | some k => decide (remote ≤ k)
  | none => false

def statusCancelled : String := "cancelled"
def statusDeleted : String := "deleted"
def statusTodo : String := "todo"

/-- `SyncService._apply_calendar_event`. -/
def apply_calendar_event (now : Nat) (ev : GEvent) (st : EngineState) :
    EngineState × Bool :=
  if !truthyS ev.id then (st, false) else
  let event_id := ev.id.getD ""
  let task? := get_by_event_id st.repo event_id
  let remote_updated := ev.updated.getD now
  if ev.status = some statusCancelled then
    match task? with
    | none => (st, false)
    | some task =>
      let (repo2, updated_task) := update_from_sync st.repo task.id now
        (fun t => { t with start := none, duration_minutes := none,
                           gcal_event_id := none, gcal_etag := none,
                           gcal_updated := some remote_updated })
        (some remote_updated)
      let q2 := queue_tasks_sync now (updated_task <|> some task) st.queue
      ({ st with repo := repo2, queue := q2 }, true)
  else
    let duration := duration_minutes_of ev.startTime ev.endTime
    let notes := ev.notes
    let summary := py_or_str ev.summary defaultEventTitle
    match task? with
    | none =>
      let repo2 := create_from_sync st.repo now
        { title := summary, notes := str_or_none notes, start := ev.startTime,
          duration_minutes := duration, priority := 0, status := some statusTodo,
          gcal_event_id := some event_id, gcal_etag := ev.etag,
          gcal_updated := some remote_updated, gtasks_id := none, gtasks_updated := none }
      ({ st with repo := repo2 }, true)
    | some task =>
      let local_updated := task.updated_at
      let known_remote := task.gcal_updated
      if not_newer_than_known remote_updated known_remote then
        (st, false)
      else if local_updated ≤ remote_updated then
        let (repo2, _) := update_from_sync st.repo task.id now
          (fun t => { t with title := summary, notes := str_or_none notes,
                             start := ev.startTime, duration_minutes := duration,
                             gcal_event_id := some event_id, gcal_etag := ev.etag,
                             gcal_updated := some remote_updated })
          (some remote_updated)
        ({ st with repo := repo2 }, true)
      else
        ({ st with queue := queue_calendar_sync now task st.queue }, false)

/-- `SyncService._apply_task_entry`. -/
def apply_task_entry (now : Nat) (entry : GTaskItem) (st : EngineState) :
    EngineState × Bool :=
  if !truthyS entry.id then (st, false) else
  let task_id := entry.id.getD ""
  let deleted := entry.deleted || entry.status = some statusDeleted
  let remote_updated := entry.updated.getD now
  let title := py_or_str entry.title defaultEventTitle
  let notes := py_or_none entry.notes
  let due_dt := entry.due.map day_floor
  let task? := get_by_gtasks_id st.repo task_id
  if deleted then
    match task? with
    | some task => ({ st with repo := delete_from_sync st.repo task.id }, true)
    | none => (st, false)
  else
    match task? with
    | none =>
      let repo2 := create_from_sync st.repo now
        { title := title, notes := notes, start := due_dt,
          duration_minutes := none, priority := 0, status := some statusTodo,
          gcal_event_id := none, gcal_etag := none, gcal_updated := none,
          gtasks_id := some task_id, gtasks_updated := some remote_updated }
      ({ st with repo := repo2 }, true)
    | some task =>
      let local_updated := task.updated_at
      let known_remote := task.gtasks_updated
      if not_newer_than_known remote_updated known_remote then
        (st, false)
      else if local_updated ≤ remote_updated then
        let (repo2, _) := update_from_sync st.repo task.id now
          (fun t => { t with title := title, notes := notes, start := due_dt,
                             duration_minutes := none, gtasks_id := some task_id,
                             gtasks_updated := some remote_updated,
                             gcal_event_id := if !is_scheduled task then none
                                              else task.gcal_event_id })
          (some remote_updated)
        ({ st with repo := repo2 }, true)
      else
        ({ st with queue := queue_tasks_sync now (some task) st.queue }, false)

/-- `SyncService.on_task_updated` (and `on_task_created`, which is
identical): route the task to exactly one backend and queue a delete
against the other. -/
def on_task_updated (enabled : Bool) (now : Nat) (task_id : Nat)
    (st : EngineState) : EngineState :=
  if !enabled then st else
  match get_task st.repo task_id with
  | none => st
  | some task =>
    if is_scheduled task then
      let q1 := ensure_tasks_delete now task st.queue
      { st with queue := queue_calendar_sync now task q1 }
    else
      let q1 := ensure_calendar_delete now task st.queue
      { st with queue := queue_tasks_sync now (some task) q1 }

/-- `SyncService.on_task_deleted`. -/
def on_task_deleted (enabled : Bool) (now : Nat) (task_id : Nat)
    (st : EngineState) : EngineState :=
  if !enabled then st else
  match get_task st.repo task_id with
  | none => st
  | some task =>
    let q1 := if truthyS task.gcal_event_id then
        enqueueOk st.queue now opGcalDelete task.id { eventId := task.gcal_event_id, taskId := none }
      else st.queue
    let q2 := if truthyS task.gtasks_id then
        enqueueOk q1 now opGtasksDelete task.id { eventId := none, taskId := task.gtasks_id }
      else q1
    { st with queue := q2 }

/-- A response item from the calendar insert/patch RPCs. -/
structure CalEventResp where
  id : Option String
  etag : Option String
  updated : Option Nat
deriving Repr

/-- The remote side as the queue worker sees it.  `cal_delete` and
`gtasks_delete`/`gtasks_patch` return `some status` when the RPC raises
`HttpError(status)`, `none` on success. -/
structure GEnv where
  cal_connected : Bool
  cal_insert : Task → CalEventResp
  cal_patch : String → Task → CalEventResp
  cal_delete : String → Option Nat
  gtasks_insert : Task → GTaskItem
  gtasks_patch : String → Task → Option Nat
  gtasks_delete : String → Option Nat

/-- `SyncService._execute_op`.  The result is `.error status` when an
`HttpError` escapes the branch, else `.ok (state, handled)`. -/
def execute_op (env : GEnv) (now : Nat) (entry : PendingOp) (st : EngineState) :
    Except Nat (EngineState × Bool) :=
  if entry.op = opGcalCreate then
    match get_task st.repo entry.task_id with
    | none => .ok (st, true)
    | some task =>
      if !is_scheduled task then .ok (st, true) else
      if !env.cal_connected then .ok (st, false) else
      let resp := env.cal_insert task
      let updated := resp.updated.getD now
      let (repo2, _) := update_from_sync st.repo task.id now
        (fun t => { t with gcal_event_id := resp.id, gcal_etag := resp.etag,
                           gcal_updated := some updated })
        (some updated)
      .ok ({ st with repo := repo2 }, true)
  else if entry.op = opGcalUpdate then
    match get_task st.repo entry.task_id with
    | none => .ok (st, true)
    | some task =>
      if !is_scheduled task then .ok (st, true) else
      let event_id := py_or_opt entry.eventId task.gcal_event_id
      if !truthyS event_id then .ok (st, true) else
      if !env.cal_connected then .ok (st, false) else
      let eid := event_id.getD ""
      let resp := env.cal_patch eid task
      let updated := resp.updated.getD now
      let (repo2, _) := update_from_sync st.repo task.id now
        (fun t => { t with gcal_event_id := some (resp.id.getD eid),
                           gcal_etag := resp.etag, gcal_updated := some updated })
        (some updated)
      .ok ({ st with repo := repo2 }, true)
  else if entry.op = opGcalDelete then
    let task? := get_task st.repo entry.task_id
    let event_id :=
      if !truthyS entry.eventId ∧ task?.isSome then
        py_or_opt entry.eventId ((task?.map Task.gcal_event_id).getD none)
      else entry.eventId
    if !truthyS event_id then .ok (st, true) else
    if !env.cal_connected then .ok (st, false) else
    match env.cal_delete (event_id.getD "") with
    | some status =>
      if status = 404 then
        match task? with
        | some task =>
          let (repo2, _) := update_from_sync st.repo task.id now
            (fun t => { t with gcal_event_id := none, gcal_etag := none,
                               gcal_updated := some now })
            none
          .ok ({ st with repo := repo2 }, true)
        | none => .ok (st, true)
      else .error status
    | none =>
      match task? with
      | some task =>
        let (repo2, _) := update_from_sync st.repo task.id now
          (fun t => { t with gcal_event_id := none, gcal_etag := none,
                             gcal_updated := some now })
          none
        .ok ({ st with repo := repo2 }, true)
      | none => .ok (st, true)
  else if entry.op = opGtasksCreate then
    match get_task st.repo entry.task_id with
    | none => .ok (st, true)
    | some task =>
      if is_scheduled task then .ok (st, true) else
      let resp := env.gtasks_insert task
      let remote_updated := resp.updated.getD now
      let (repo2, _) := update_from_sync st.repo task.id now
        (fun t => { t with gtasks_id := resp.id, gtasks_updated := some remote_updated })
        (some remote_updated)
      .ok ({ st with repo := repo2 }, true)
  else if entry.op = opGtasksUpdate then
    match get_task st.repo entry.task_id with
    | none => .ok (st, true)
    | some task =>
      let tid := py_or_opt entry.taskId task.gtasks_id
      if !truthyS tid then .ok (st, true) else
      match env.gtasks_patch (tid.getD "") task with
      | some status => .error status
      | none =>
        let (repo2, _) := update_from_sync st.repo task.id now
          (fun t => { t with gtasks_id := tid, gtasks_updated := some now })
          none
        .ok ({ st with repo := repo2 }, true)
  else if entry.op = opGtasksDelete then
    let task? := get_task st.repo entry.task_id
    let tid :=
      if !truthyS entry.taskId ∧ task?.isSome then
        py_or_opt entry.taskId ((task?.map Task.gtasks_id).getD none)
      else entry.taskId
    if !truthyS tid then .ok (st, true) else
    match env.gtasks_delete (tid.getD "") with
    | some status =>
      if status = 404 then
        match task? with
        | some task =>
          let (repo2, _) := update_from_sync st.repo task.id now
            (fun t => { t with gtasks_id := none, gtasks_updated := some now })
            none
          .ok ({ st with repo := repo2 }, true)
        | none => .ok (st, true)
      else .error status
    | none =>
      match task? with
      | some task =>
        let (repo2, _) := update_from_sync st.repo task.id now
          (fun t => { t with gtasks_id := none, gtasks_updated := some now })
          none
        .ok ({ st with repo := repo2 }, true)
      | none => .ok (st, true)
  else .ok (st, false)

def invalidPayloadMsg : String := "invalid payload"

/-- The body of `SyncService.push_queue_worker` over the snapshot of due
operations: success removes the row and stamps `lastPushAt`, a `False`
result or an exception requeues it with backoff. -/
def push_queue_worker_go (env : GEnv) (now : Nat) (entries : List PendingOp)
    (st : EngineState) (processed : Nat) : EngineState × Nat :=
  match entries with
  | [] => (st, processed)
  | e :: rest =>
    match execute_op env now e st with
    | .ok (st2, true) =>
      let st3 := { st2 with queue := remove st2.queue e.id,
                            store := set_last_push_timestamp st2.store now }
      push_queue_worker_go env now rest st3 (processed + 1)
    | .ok (st2, false) =>
      push_queue_worker_go env now rest
        { st2 with queue := requeue st2.queue now e.id invalidPayloadMsg } processed
    | .error status =>
      push_queue_worker_go env now rest
        { st with queue := requeue st.queue now e.id (toString status) } processed

/-- `SyncService.push_queue_worker`. -/
def push_queue_worker (env : GEnv) (now : Nat) (st : EngineState) :
    EngineState × Nat :=
  push_queue_worker_go env now (due st.queue now 10) st 0

/-- The query parameters of one `events().list` call (besides the fixed
`calendarId`, `singleEvents`, `showDeleted`, `maxResults`). -/
structure CalRequest where
  syncToken : Option String
  timeMin : Option Nat
  pageToken : Option String
deriving Repr, DecidableEq

/-- One page of the calendar list response. -/
structure CalPage where
  items : List GEvent
  nextPageToken : Option String
  nextSyncToken : Option String
deriving Repr

/-- A scripted remote answer: a page, or an `HttpError` with a status. -/
inductive CalResp where
  | page (p : CalPage)
  | httpError (status : Nat)
deriving Repr

/-- The observable outcome of a pull: normal return or a raised error. -/
inductive PullOutcome where
  | ok (changed : Bool)
  | err (status : Nat)
deriving Repr, DecidableEq

def lookback_days : Nat := 90

def lookback_seconds : Nat := lookback_days * 86400

/-- The initial request parameters of `_pull_calendar`: an incremental call
with the stored token when one is present, else a `timeMin` window of 90
days back. -/
def calendar_params (now : Nat) (token : Option String) : CalRequest :=
  if truthyS token then { syncToken := token, timeMin := none, pageToken := none }
  else { syncToken := none, timeMin := some (now - lookback_seconds), pageToken := none }

/-- `for event in response["items"]: _apply_calendar_event(event)`. -/
def apply_events (now : Nat) (evs : List GEvent) (st : EngineState)
    (changed : Bool) : EngineState × Bool :=
  match evs with
  | [] => (st, changed)
  | ev :: rest =>
    let (st2, ch) := apply_calendar_event now ev st
    apply_events now rest st2 (changed || ch)

/-- The page loop of `_pull_calendar`.  The remote answers are a finite
script consumed in call order; each element of the returned request list is
the parameters of one `events().list` call.  `nextSyncToken` is persisted
only on the final page; an `HttpError` aborts the loop with the state
mutated so far kept (Python does not roll back). -/
def pull_calendar_pages (now : Nat) (script : List CalResp) (params : CalRequest)
    (st : EngineState) (changed : Bool) :
    EngineState × Bool × List CalRequest × Option Nat :=
  match script with
  | [] => (st, changed, [params], some 0)
  | resp :: rest =>
    match resp with
    | .httpError s => (st, changed, [params], some s)
    | .page p =>
      let (st2, changed2) := apply_events now p.items st changed
      match p.nextPageToken with
      | some tok =>
        let params2 : CalRequest := { syncToken := none, timeMin := none, pageToken := some tok }
        let (st3, c3, reqs, e) := pull_calendar_pages now rest params2 st2 changed2
        (st3, c3, params :: reqs, e)
      | none =>
        let st3 :=
          match p.nextSyncToken with
          | some tok => { st2 with store := set_calendar_token st2.store tok }
          | none => st2
        (st3, changed2, [params], none)

/-- `SyncService._pull_calendar`.  `connected` is whether `gcal.connect()`
left a usable `service`. -/
def pull_calendar (connected : Bool) (now : Nat) (script : List CalResp)
    (st : EngineState) : EngineState × PullOutcome × List CalRequest :=
  if !connected then (st, .ok false, []) else
  let params := calendar_params now (get_calendar_token st.store)
  let (st2, changed, reqs, errStatus) := pull_calendar_pages now script params st false
  match errStatus with
  | some s => (st2, .err s, reqs)
  | none =>
    ({ st2 with store := set_calendar_pull_timestamp st2.store now }, .ok changed, reqs)

/-- The item loop of `_pull_tasks`, tracking the newest remote revision. -/
def apply_entries (now : Nat) (items : List GTaskItem) (st : EngineState)
    (changed : Bool) (latest : Option Nat) : EngineState × Bool × Option Nat :=
  match items with
  | [] => (st, changed, latest)
  | e :: rest =>
    let (st2, ch) := apply_task_entry now e st
    let latest2 :=
      match e.updated, latest with
      | some r, some l => if l < r then some r else latest
      | some r, none => some r
      | none, _ => latest
    apply_entries now rest st2 (changed || ch) latest2

/-- `SyncService._pull_tasks`.  `tlist` is `gtasks.list(updated_min=...)`;
the returned `Option Nat` is the `updated_min` that was passed to it. -/
def pull_tasks (tlist : Option Nat → List GTaskItem) (now : Nat)
    (st : EngineState) : EngineState × Bool × Option Nat :=
  let updated_min := get_tasks_updated_min st.store
  let items := tlist updated_min
  if items.isEmpty then
    ({ st with store := set_tasks_pull_timestamp st.store now }, false, updated_min)
  else
    let (st2, changed, latest) := apply_entries now items st false updated_min
    let st3 :=
      match latest with
      | some l => { st2 with store := set_tasks_updated_min st2.store (some l) }
      | none => st2
    ({ st3 with store := set_tasks_pull_timestamp st3.store now }, changed, updated_min)

/-- `SyncService.pull_all`: the calendar pull, with a single retry after
clearing the token when the error status is 410, then the tasks pull.
`script1` answers the first calendar pull, `script2` the retry. -/
def pull_all (enabled connected : Bool) (now : Nat)
    (script1 script2 : List CalResp) (tlist : Option Nat → List GTaskItem)
    (st : EngineState) : EngineState × PullOutcome × List CalRequest :=
  if !enabled then (st, .ok false, []) else
  let (st1, out1, reqs1) := pull_calendar connected now script1 st
  match out1 with
  | .err status =>
    if status = 410 then
      let st1b := { st1 with store := clear_calendar_token st1.store }
      let (st2, out2, reqs2) := pull_calendar connected now script2 st1b
      match out2 with
      | .err s2 => (st2, .err s2, reqs1 ++ reqs2)
      | .ok c2 =>
        let (st3, cT, _) := pull_tasks tlist now st2
        (st3, .ok (c2 || cT), reqs1 ++ reqs2)
    else (st1, .err status, reqs1)
  | .ok c1 =>
    let (st3, cT, _) := pull_tasks tlist now st1
    (st3, .ok (c1 || cT), reqs1)

/-- A row of `TaskSyncMapping` (`models/task_sync.py`), used by
`GoogleTasksSync` in `google_tasks.py`. -/
structure TaskSyncMapping where
  local_id : Nat
  google_task_id : Option String
  tasklist_id : Option String
  etag : Option String
  updated_at_utc : Nat
deriving Repr, DecidableEq

/-- The state `GoogleTasksSync` acts on: the task rows and the mapping table. -/
structure TSState where
  tasks : List Task
  mappings : List TaskSyncMapping
deriving Repr

/-- `TaskSyncStore.get_mapping`. -/
def ts_get_mapping (ms : List TaskSyncMapping) (local_id : Nat) : Option TaskSyncMapping :=
  ms.find? (fun m => m.local_id == local_id)

/-- `TaskSyncStore.get_mapping_by_google`. -/
def ts_get_mapping_by_google (ms : List TaskSyncMapping) (gid : String) :
    Option TaskSyncMapping :=
  ms.find? (fun m => m.google_task_id == some gid)

/-- `TaskSyncStore.upsert_mapping`. -/
def ts_upsert_mapping (ms : List TaskSyncMapping) (local_id : Nat)
    (gid tlid etag : Option String) (upd : Nat) : List TaskSyncMapping :=
  if (ts_get_mapping ms local_id).isSome then
    ms.map (fun m =>
      if m.local_id == local_id then
        { m with google_task_id := gid, tasklist_id := tlid, etag := etag,
                 updated_at_utc := upd }
      else m)
  else
    ms ++ [{ local_id := local_id, google_task_id := gid, tasklist_id := tlid,
             etag := etag, updated_at_utc := upd }]

/-- `TaskSyncStore.delete_mapping`. -/
def ts_delete_mapping (ms : List TaskSyncMapping) (local_id : Nat) :
    List TaskSyncMapping :=
  ms.filter (fun m => m.local_id ≠ local_id)

/-- `TaskService.add` as `_apply_remote_task` calls it (title, notes only). -/
def task_add (repo : List Task) (now : Nat) (title : String)
    (notes : Option String) : List Task × Task :=
  let t : Task :=
    { id := fresh_id repo, title := title.trim, notes := py_or_none notes,
      start := none, duration_minutes := none, priority := 0, status := statusTodo,
      gcal_event_id := none, gcal_etag := none, gcal_updated := none,
      gtasks_id := none, gtasks_updated := none,
      created_at := now, updated_at := now }
  (repo ++ [t], t)

/-- `TaskService.set_status`. -/
def task_set_status (repo : List Task) (now : Nat) (i : Nat) (status : String) :
    List Task :=
  repo.map (fun t => if t.id == i then { t with status := status, updated_at := now } else t)

/-- `TaskService.update` restricted to the keywords `_apply_remote_task`
passes (`title`, `notes`).  Note the source always overwrites `start` and
`duration_minutes` with the defaulted `None` arguments. -/
def task_update (repo : List Task) (now : Nat) (i : Nat)
    (title notes : Option String) : List Task :=
  repo.map (fun t =>
    if t.id == i then
      let t1 := match title with
        | some s => { t with title := s.trim }
        | none => t
      let t2 := match notes with
        | some s => { t1 with notes := str_or_none s }
        | none => t1
      { t2 with start := none, duration_minutes := none, updated_at := now }
    else t)

def statusCompleted : String := "completed"
def statusDone : String := "done"
def statusNeedsAction : String := "needsAction"

/-- `GoogleTasksSync._apply_remote_task` (pull semantics for one item). -/
def apply_remote_task (now : Nat) (tlid : Option String) (item : GTaskItem)
    (st : TSState) : TSState × Bool :=
  if !truthyS item.id then (st, false) else
  let google_id := item.id.getD ""
  let mapping? := ts_get_mapping_by_google st.mappings google_id
  let notes := (item.notes.getD "").trim
  let title := py_or_str item.title defaultEventTitle
  let updated_remote := item.updated.getD now
  if item.deleted then
    match mapping? with
    | some m =>
      ({ tasks := task_set_status st.tasks now m.local_id statusDone,
         mappings := ts_delete_mapping st.mappings m.local_id }, true)
    | none => (st, false)
  else if item.status = some statusCompleted then
    match mapping? with
    | some m =>
      ({ tasks := task_set_status st.tasks now m.local_id statusDone,
         mappings := ts_upsert_mapping st.mappings m.local_id (some google_id)
           tlid item.etag updated_remote }, true)
    | none => (st, false)
  else if item.due.isSome then (st, false)
  else
    match mapping? with
    | some m =>
      match get_task st.tasks m.local_id with
      | none =>
        let (tasks2, t) := task_add st.tasks now title (str_or_none notes)
        ({ tasks := tasks2,
           mappings := ts_upsert_mapping st.mappings t.id (some google_id)
             tlid item.etag updated_remote }, true)
      | some task =>
        let titleChanged := task.title ≠ title
        let notesChanged := (task.notes.getD "").trim ≠ notes
        let statusReset := task.status = statusDone
        let tasks2 := if statusReset then task_set_status st.tasks now task.id statusTodo
                      else st.tasks
        let tasks3 :=
          if titleChanged || notesChanged then
            task_update tasks2 now task.id
              (if titleChanged then some title else none)
              (if notesChanged then some notes else none)
          else tasks2
        ({ tasks := tasks3,
           mappings := ts_upsert_mapping st.mappings task.id (some google_id)
             tlid item.etag updated_remote },
         statusReset || titleChanged || notesChanged)
    | none =>
      let (tasks2, t) := task_add st.tasks now title (str_or_none notes)
      ({ tasks := tasks2,
         mappings := ts_upsert_mapping st.mappings t.id (some google_id)
           tlid item.etag updated_remote }, true)

/-- `GoogleTasksSync._needs_remote_update` (both instants are non-null in
the model). -/
def needs_remote_update (task : Task) (m : TaskSyncMapping) : Bool :=
  decide (m.updated_at_utc < task.updated_at)

/-- One `tasks().patch` call as issued by the push path: target, body and
the optional `If-Match` header. -/
structure TasksPatchRequest where
  tasklist : Option String
  target : Option String
  title : String
  notes : String
  status : String
  ifMatch : Option String
deriving Repr, DecidableEq

/-- `GoogleTasksSync._handle_conflict`: re-fetch the remote (`fetched`),
apply last-writer-wins.  Remote at-least-as-new: apply remote to local and
issue no patch.  Local newer: force-overwrite with the local fields, the
`If-Match` header being the freshly fetched revision; `patchResp` is the
response of that patch.  The returned request is the patch issued, if any. -/
def handle_conflict (now : Nat) (tlid : Option String) (task : Task)
    (mapping : TaskSyncMapping) (fetched : GTaskItem) (patchResp : GTaskItem)
    (st : TSState) : TSState × Bool × Option TasksPatchRequest :=
  let remote_updated := fetched.updated
  let local_updated : Option Nat := some task.updated_at
  let remoteWins :=
    match remote_updated with
    | some r => (match local_updated with | none => true | some l => decide (l ≤ r))
    | none => false
  if remoteWins then
    let (st2, changed) := apply_remote_task now tlid fetched st
    (st2, changed, none)
  else
    let req : TasksPatchRequest :=
      { tasklist := tlid, target := mapping.google_task_id,
        title := py_or_str (some task.title) defaultEventTitle,
        notes := (task.notes.getD "").trim,
        status := statusNeedsAction,
        ifMatch := if truthyS fetched.etag then fetched.etag else none }
    let mappings2 := ts_upsert_mapping st.mappings task.id patchResp.id tlid
      patchResp.etag (patchResp.updated.getD now)
    ({ st with mappings := mappings2 }, true, some req)

/-- `GoogleTasksSync._push_task`.  `patchOutcome` scripts the first
`tasks().patch` call (a response or a raised status); `insertResp` the
`tasks().insert` response; `fetched`/`conflictPatchResp` script the calls
`_handle_conflict` makes.  Returns the new state, whether a write happened,
and the patch requests issued in order. -/
def push_task (now : Nat) (tlid : Option String) (task : Task) (force : Bool)
    (patchOutcome : Except Nat GTaskItem) (insertResp : GTaskItem)
    (fetched : GTaskItem) (conflictPatchResp : GTaskItem)
    (st : TSState) : Except Nat (TSState × Bool × List TasksPatchRequest) :=
  let mapping? := ts_get_mapping st.mappings task.id
  let bodyTitle := py_or_str (some task.title) defaultEventTitle
  let bodyNotes := (task.notes.getD "").trim
  let insertPath : TSState → Except Nat (TSState × Bool × List TasksPatchRequest) :=
    fun s =>
      let mappings2 := ts_upsert_mapping s.mappings task.id insertResp.id tlid
        insertResp.etag (insertResp.updated.getD now)
      .ok ({ s with mappings := mappings2 }, true, [])
  match mapping? with
  | some mapping =>
    if truthyS mapping.google_task_id then
      if !force && !needs_remote_update task mapping then .ok (st, false, [])
      else
        let req1 : TasksPatchRequest :=
          { tasklist := tlid, target := mapping.google_task_id,
            title := bodyTitle, notes := bodyNotes, status := statusNeedsAction,
            ifMatch := if truthyS mapping.etag then mapping.etag else none }
        match patchOutcome with
        | .error 404 => (insertPath st).map (fun r => (r.1, r.2.1, req1 :: r.2.2))
        | .error 412 =>
          let (st2, changed, req2?) := handle_conflict now tlid task mapping fetched
            conflictPatchResp st
          .ok (st2, changed, req1 :: req2?.toList)
        | .error s => .error s
        | .ok resp =>
          let mappings2 := ts_upsert_mapping st.mappings task.id resp.id tlid
            resp.etag (resp.updated.getD now)
          .ok ({ st with mappings := mappings2 }, true, [req1])
    else insertPath st
  | none => insertPath st

/-- A row of `SyncMapUndated` (`models/sync_map_undated.py`). -/
structure SyncMapUndated where
  task_id : String
  gtask_id : Option String
  tasklist_id : String
  updated_at_utc : Nat
  dirty_flag : Nat
deriving Repr, DecidableEq

/-- One metadata entry of the remote index blob (`index["tasks"][gtask_id]`),
a JSON object whose keys may be absent or null.  Its `updated_at` ISO string
is kept as the abstract instant it parses to (`none` for absent, null or
unparseable). -/
structure MetaEntry where
  task_id : Option String
  priority : Option Int
  status : Option String
  updated_at : Option Nat
  device_id : Option String
deriving Repr, DecidableEq

/-- An item of `GoogleTasksBridge.fetch_all` as `UndatedTasksSync.pull`
consumes it: the dict keys `id`, `title`, `notes`, `detected_meta`,
`updated`, `status`. -/
structure RemoteItem where
  id : Option String
  title : Option String
  notes : Option String
  detected_meta : Option MetaEntry
  updated : Option Nat
  status : Option String
deriving Repr

/-- The state `UndatedTasksSync` acts on: task rows, the `SyncMapUndated`
table, and the cached index blob (its `tasks` dict and dirty bit; the
`version`/`tasklist_id` header fields play no part in the embedded paths). -/
structure UndatedState where
  tasks : List Task
  mappings : List SyncMapUndated
  index_tasks : List (String × MetaEntry)
  index_dirty : Bool
deriving Repr

/-- `index["tasks"].get(gtask_id)`. -/
def index_get (ix : List (String × MetaEntry)) (g : String) : Option MetaEntry :=
  match ix with
  | [] => none
  | (k, e) :: rest => if k = g then some e else index_get rest g

/-- `index["tasks"][gtask_id] = entry`. -/
def index_set (ix : List (String × MetaEntry)) (g : String) (e : MetaEntry) :
    List (String × MetaEntry) :=
  match ix with
  | [] => [(g, e)]
  | (k, e2) :: rest => if k = g then (k, e) :: rest else (k, e2) :: index_set rest g e

/-- `index["tasks"].pop(gtask_id, None)`. -/
def index_pop (ix : List (String × MetaEntry)) (g : String) :
    List (String × MetaEntry) :=
  ix.filter (fun p => p.1 ≠ g)

/-- `int(s)` on a decimal string, the parse `_load_task` performs
(modelled over the character list so that the kernel can evaluate it). -/
def py_int (s : String) : Option Nat :=
  match s.data with
  | [] => none
  | cs =>
    if cs.all (fun c => c.isDigit) then
      some (cs.foldl (fun n c => n * 10 + (c.toNat - 48)) 0)
    else none

/-- `str.lower()` (over the character list, kernel-computable). -/
def py_lower (s : String) : String :=
  ⟨s.data.map Char.toLower⟩

/-- `str.strip()` (over the character list, kernel-computable). -/
def py_strip (s : String) : String :=
  ⟨((s.data.dropWhile Char.isWhitespace).reverse.dropWhile
      Char.isWhitespace).reverse⟩

/-- `undated_tasks_sync._normalise_status`. -/
def normalise_status (value : Option String) (fallback : String) : String :=
  match value with
  | none => fallback
  | some v =>
    if v = "" then fallback else
    let lowered := py_lower (py_strip v)
    if lowered ∈ [statusTodo, "doing", statusDone] then lowered
    else if lowered ∈ [statusCompleted, "complete", "finished"] then statusDone
    else if lowered ∈ ["needsaction", "needs_action"] then statusTodo
    else fallback

/-- `undated_tasks_sync._normalise_priority` over `core.priorities
.normalize_priority` (clamp to the closed range 0..3, default 0). -/
def normalise_priority (v : Option Int) : Int :=
  match v with
  | none => 0
  | some i => max 0 (min 3 i)

/-- `undated_tasks_sync._status_from_google`. -/
def status_from_google (value : Option String) : String :=
  if py_lower (value.getD "") = statusCompleted then statusDone else statusTodo

/-- The fresh entry `_ensure_index_entry` creates. -/
def new_meta_entry (now : Nat) (device : String) : MetaEntry :=
  { task_id := none, priority := some 0, status := some statusTodo,
    updated_at := some now, device_id := some device }

/-- A detected-meta dict with no usable keys (`item.get("detected_meta") or {}`). -/
def emptyMeta : MetaEntry :=
  { task_id := none, priority := none, status := none, updated_at := none,
    device_id := none }

/-- One key of `_merge_detected_meta`: skip absent/empty detected values,
copy a differing value and report the change. -/
def merge_str_key (cur det : Option String) : Option String × Bool :=
  match det with
  | none => (cur, false)
  | some v =>
    if v = "" then (cur, false)
    else if cur = some v then (cur, false)
    else (some v, true)

def merge_int_key (cur det : Option Int) : Option Int × Bool :=
  match det with
  | none => (cur, false)
  | some v => if cur = some v then (cur, false) else (some v, true)

def merge_nat_key (cur det : Option Nat) : Option Nat × Bool :=
  match det with
  | none => (cur, false)
  | some v => if cur = some v then (cur, false) else (some v, true)

/-- `UndatedTasksSync._merge_detected_meta`: fold the detected keys into the
index entry; when anything changed, backfill a missing `updated_at` from the
detected value, the item's `updated` or now, and a missing `device_id` from
the detected value or this device.  Returns the entry and whether the index
became dirty. -/
def merge_detected_meta (now : Nat) (device : String) (entry det : MetaEntry)
    (item_updated : Option Nat) : MetaEntry × Bool :=
  let (tid, c1) := merge_str_key entry.task_id det.task_id
  let (pri, c2) := merge_int_key entry.priority det.priority
  let (sta, c3) := merge_str_key entry.status det.status
  let (upd, c4) := merge_nat_key entry.updated_at det.updated_at
  let (dev, c5) := merge_str_key entry.device_id det.device_id
  let changed := c1 || c2 || c3 || c4 || c5
  let e : MetaEntry :=
    { task_id := tid, priority := pri, status := sta, updated_at := upd,
      device_id := dev }
  if changed then
    let e2 := if e.updated_at.isSome then e
      else { e with updated_at :=
        match det.updated_at, item_updated with
        | some v, _ => some v
        | none, some v => some v
        | none, none => some now }
    let e3 := if truthyS e2.device_id then e2
      else { e2 with device_id :=
        match det.device_id with
        | some v => if v = "" then some device else some v
        | none => some device }
    (e3, true)
  else (e, false)

/-- `UndatedTasksSync._apply_remote_payload`: overwrite title/notes from the
remote item unless the local row is strictly newer. -/
def apply_remote_payload (now : Nat) (t : Task) (item : RemoteItem) : Task × Bool :=
  let remote_title := py_or_str item.title ""
  let remote_notes := py_or_str item.notes ""
  let should_update :=
    match item.updated with
    | some r => decide (t.updated_at ≤ r)
    | none => true
  if should_update then
    let titleCh := t.title ≠ remote_title
    let notesCh := (t.notes.getD "") ≠ remote_notes
    let t2 := { t with title := if titleCh then remote_title else t.title,
                       notes := if notesCh then str_or_none remote_notes else t.notes }
    if titleCh || notesCh then ({ t2 with updated_at := now }, true) else (t2, false)
  else (t, false)

/-- `UndatedTasksSync._apply_meta_to_task`: push the index entry's status
and priority onto the local row (remote completion always wins; a stale
"done" in the metadata is overridden by a newer remote status). -/
def apply_meta_to_task (now : Nat) (t : Task) (entry : MetaEntry)
    (item : RemoteItem) : Task × Bool :=
  let remote_status := status_from_google item.status
  let status0 :=
    if remote_status = statusDone then statusDone
    else normalise_status entry.status remote_status
  let priority := normalise_priority entry.priority
  let status :=
    if remote_status ≠ statusDone ∧ status0 = statusDone then
      match item.updated, entry.updated_at with
      | some r, some m => if m < r then remote_status else status0
      | _, _ => status0
    else status0
  let changed := (t.status ≠ status) || (t.priority ≠ priority)
  if changed then
    ({ t with status := status, priority := priority, updated_at := now }, true)
  else (t, false)

/-- `UndatedTasksSync._create_local_task_from_remote`. -/
def create_local_task_from_remote (now : Nat) (repo : List Task)
    (item : RemoteItem) (entry : MetaEntry) : List Task × Task :=
  let status := normalise_status entry.status (status_from_google item.status)
  let priority := normalise_priority entry.priority
  let notes := py_or_str item.notes ""
  let t : Task :=
    { id := fresh_id repo, title := py_or_str item.title "",
      notes := str_or_none notes, start := none, duration_minutes := none,
      priority := priority, status := status,
      gcal_event_id := none, gcal_etag := none, gcal_updated := none,
      gtasks_id := none, gtasks_updated := none,
      created_at := now, updated_at := now }
  (repo ++ [t], t)

/-- `UndatedTasksSync._load_task`: `int(task_id)` then a primary-key get. -/
def load_task (repo : List Task) (task_id : String) : Option Task :=
  match py_int task_id with
  | some n => get_task repo n
  | none => none

/-- The mapping snapshot of `pull`: mappings of this tasklist keyed by
`gtask_id or ""`, later rows shadowing earlier ones. -/
def find_mapping_by_gtask (ms : List SyncMapUndated) (tl g : String) :
    Option SyncMapUndated :=
  (ms.filter (fun m => m.tasklist_id == tl)).reverse.find?
    (fun m => m.gtask_id.getD "" == g)

/-- Store a refreshed task row. -/
def store_task (repo : List Task) (t : Task) : List Task :=
  repo.map (fun u => if u.id == t.id then t else u)

/-- `SyncMapUndated` update by primary key. -/
def store_mapping (ms : List SyncMapUndated) (m : SyncMapUndated) :
    List SyncMapUndated :=
  ms.map (fun u => if u.task_id == m.task_id then m else u)

/-- The body of `UndatedTasksSync.pull` for one fetched item. -/
def undated_pull_item (now : Nat) (tl device : String) (item : RemoteItem)
    (st : UndatedState) : UndatedState × Bool :=
  if !truthyS item.id then (st, false) else
  let g := item.id.getD ""
  let (ix1, entry0, d1) :=
    match index_get st.index_tasks g with
    | some e => (st.index_tasks, e, st.index_dirty)
    | none =>
      let e := new_meta_entry now device
      (index_set st.index_tasks g e, e, true)
  let det := item.detected_meta.getD emptyMeta
  let (entry1, dMeta) := merge_detected_meta now device entry0 det item.updated
  let d2 := d1 || dMeta
  let mapping? := find_mapping_by_gtask st.mappings tl g
  let viaMapping : Option Task :=
    match mapping? with
    | some m => load_task st.tasks m.task_id
    | none => none
  let local_task? : Option Task :=
    match viaMapping with
    | some t => some t
    | none =>
      if truthyS entry1.task_id then load_task st.tasks (entry1.task_id.getD "")
      else none
  match local_task? with
  | none =>
    let (tasks1, newT) := create_local_task_from_remote now st.tasks item entry1
    let m : SyncMapUndated :=
      { task_id := toString newT.id, gtask_id := some g, tasklist_id := tl,
        dirty_flag := 0, updated_at_utc := now }
    let mappings1 := st.mappings ++ [m]
    let (t3, _) := apply_meta_to_task now newT entry1 item
    let tidStr := toString t3.id
    let entry2 := if entry1.task_id ≠ some tidStr then { entry1 with task_id := some tidStr }
                  else entry1
    let d3 := d2 || decide (entry1.task_id ≠ some tidStr)
    ({ tasks := store_task tasks1 t3, mappings := mappings1,
       index_tasks := index_set ix1 g entry2, index_dirty := d3 }, true)
  | some lt =>
    let (mappings1, mapping) :=
      match mapping? with
      | some m => (st.mappings, m)
      | none =>
        let m : SyncMapUndated :=
          { task_id := toString lt.id, gtask_id := some g, tasklist_id := tl,
            dirty_flag := 0, updated_at_utc := now }
        (st.mappings ++ [m], m)
    let (lt2, chPayload) :=
      if mapping.dirty_flag = 0 then apply_remote_payload now lt item
      else (lt, false)
    let mapping2 := { mapping with updated_at_utc := now }
    let mappings2 := store_mapping mappings1 mapping2
    let (lt3, chMeta) := apply_meta_to_task now lt2 entry1 item
    let tidStr := toString lt3.id
    let entry2 := if entry1.task_id ≠ some tidStr then { entry1 with task_id := some tidStr }
                  else entry1
    let d3 := d2 || decide (entry1.task_id ≠ some tidStr)
    ({ tasks := store_task st.tasks lt3, mappings := mappings2,
       index_tasks := index_set ix1 g entry2, index_dirty := d3 },
     chPayload || chMeta)

/-- The item loop of `UndatedTasksSync.pull`. -/
def undated_pull_items (now : Nat) (tl device : String) (items : List RemoteItem)
    (st : UndatedState) (changed : Bool) : UndatedState × Bool :=
  match items with
  | [] => (st, changed)
  | item :: rest =>
    let (st2, ch) := undated_pull_item now tl device item st
    undated_pull_items now tl device rest st2 (changed || ch)

/-- `UndatedTasksSync.pull`: apply every fetched item, then persist the
index if dirty (the remote blob write is outside the local state; its local
observable is the cleared dirty bit).  `fetch` is `bridge.fetch_all`,
`none` when it raised. -/
def undated_pull (now : Nat) (tl device : String)
    (fetch : Option (List RemoteItem)) (st : UndatedState) :
    UndatedState × Bool :=
  match fetch with
  | none => (st, false)
  | some items =>
    let (st2, changed) := undated_pull_items now tl device items st false
    ({ st2 with index_dirty := false }, changed)

/-- The payload `push_dirty` hands `bridge.upsert_task`. -/
structure UpsertPayload where
  gtask_id : Option String
  title : String
  notes : Option String
  status : String
  updated_at : Nat
deriving Repr, DecidableEq

/-- The body of `UndatedTasksSync.push_dirty` for one unscheduled task.
`upsert` is `bridge.upsert_task` (`none` when it raised).  A pre-existing
mapping's `tasklist_id` correction sticks even when the upsert fails (the
row is session-attached); a brand-new mapping is only persisted on
success. -/
def undated_push_one (now : Nat) (tl device : String)
    (upsert : UpsertPayload → Option String) (t : Task) (st : UndatedState)
    (changed : Bool) : UndatedState × Bool :=
  let existing := st.mappings.find? (fun m => m.task_id == toString t.id)
  let (mappings0, mapping) :=
    match existing with
    | none =>
      (st.mappings,
       ({ task_id := toString t.id, gtask_id := none, tasklist_id := tl,
          dirty_flag := 1, updated_at_utc := now } : SyncMapUndated))
    | some m =>
      if m.tasklist_id ≠ tl then
        let m2 := { m with tasklist_id := tl }
        (store_mapping st.mappings m2, m2)
      else (st.mappings, m)
  let st0 := { st with mappings := mappings0 }
  if mapping.dirty_flag = 0 && truthyS mapping.gtask_id then (st0, changed)
  else
    let payload : UpsertPayload :=
      { gtask_id := mapping.gtask_id, title := t.title, notes := t.notes,
        status := t.status, updated_at := t.updated_at }
    match upsert payload with
    | none => (st0, changed)
    | some gid =>
      let ix1 :=
        if truthyS mapping.gtask_id ∧ mapping.gtask_id ≠ some gid then
          index_pop st0.index_tasks (mapping.gtask_id.getD "")
        else st0.index_tasks
      let mapping2 := { mapping with gtask_id := some gid, dirty_flag := 0,
                                     updated_at_utc := now }
      let mappings2 :=
        match existing with
        | some _ => store_mapping mappings0 mapping2
        | none => mappings0 ++ [mapping2]
      let entry2 : MetaEntry :=
        { task_id := some (toString t.id),
          priority := some (normalise_priority (some t.priority)),
          status := some (normalise_status (some t.status) statusTodo),
          updated_at := some now, device_id := some device }
      ({ tasks := st0.tasks, mappings := mappings2,
         index_tasks := index_set ix1 gid entry2, index_dirty := true }, true)

/-- The task loop of `UndatedTasksSync.push_dirty` over the unscheduled
rows. -/
def undated_push_items (now : Nat) (tl device : String)
    (upsert : UpsertPayload → Option String) (ts : List Task)
    (st : UndatedState) (changed : Bool) : UndatedState × Bool :=
  match ts with
  | [] => (st, changed)
  | t :: rest =>
    let (st2, ch) := undated_push_one now tl device upsert t st changed
    undated_push_items now tl device upsert rest st2 ch

/-- `UndatedTasksSync.push_dirty`: iterate the tasks with `start == None`,
then persist the index if dirty. -/
def undated_push_dirty (now : Nat) (tl device : String)
    (upsert : UpsertPayload → Option String) (st : UndatedState) :
    UndatedState × Bool :=
  let unscheduled := st.tasks.filter (fun t => t.start.isNone)
  let (st2, changed) := undated_push_items now tl device upsert unscheduled st false
  ({ st2 with index_dirty := false }, changed)

/-! ### Concrete fixtures for witnesses and counterexamples -/

def emptyGTaskItem : GTaskItem :=
  { id := none, deleted := false, status := none, updated := none,
    title := none, notes := none, due := none, etag := none }

/-- A remote environment whose delete RPCs answer 404 (entity already gone)
and whose other RPCs answer blankly. -/
def envDelete404 : GEnv :=
  { cal_connected := true
    cal_insert := fun _ => { id := none, etag := none, updated := none }
    cal_patch := fun _ _ => { id := none, etag := none, updated := none }
    cal_delete := fun _ => some 404
    gtasks_insert := fun _ => emptyGTaskItem
    gtasks_patch := fun _ _ => none
    gtasks_delete := fun _ => some 404 }

/-- A scheduled task carrying a calendar link and a stale tasks link. -/
def taskBoth : Task :=
  { id := 1, title := "A", notes := none, start := some 3600,
    duration_minutes := some 60, priority := 0, status := "todo",
    gcal_event_id := some "e1", gcal_etag := some "et1", gcal_updated := some 50,
    gtasks_id := some "g1", gtasks_updated := some 40,
    created_at := 0, updated_at := 45 }

/-- The same task unscheduled. -/
def taskUnsched : Task :=
  { taskBoth with start := none, duration_minutes := none }

def opDelGcal : PendingOp :=
  { id := 0, op := opGcalDelete, task_id := 1, eventId := some "e1",
    taskId := none, attempts := 0, last_error := none, created_at := 0,
    next_try_at := 0 }

def opDelGtasks : PendingOp :=
  { id := 0, op := opGtasksDelete, task_id := 1, eventId := none,
    taskId := some "g1", attempts := 0, last_error := none, created_at := 0,
    next_try_at := 0 }

/-- C1's counterexample task: a tasks-linked row whose recorded remote
revision (`gtasks_updated = 10`) is ahead of its own `updated_at = 5` (the
state a `gtasks_update` push leaves behind, which stamps `gtasks_updated`
with the wall clock but leaves `updated_at` alone). -/
def c1Task : Task :=
  { id := 1, title := "A", notes := none, start := none,
    duration_minutes := none, priority := 0, status := "todo",
    gcal_event_id := none, gcal_etag := none, gcal_updated := none,
    gtasks_id := some "g1", gtasks_updated := some 10,
    created_at := 0, updated_at := 5 }

/-- C1's counterexample remote item: revision 7, which is ≥ the local
`updated_at` 5 but ≤ the recorded remote revision 10. -/
def c1Entry : GTaskItem :=
  { id := some "g1", deleted := false, status := none, updated := some 7,
    title := some "B", notes := none, due := none, etag := none }

def c1State : EngineState :=
  { repo := [c1Task], queue := ⟨[], 0⟩, store := .missing }

/-- C2's counterexample remote item: a deleted Google Tasks entry linked to
the local task `g1`. -/
def c2Entry : GTaskItem :=
  { id := some "g1", deleted := true, status := none, updated := some 60,
    title := none, notes := none, due := none, etag := none }

def c2State : EngineState :=
  { repo := [taskUnsched], queue := ⟨[], 0⟩, store := .missing }

/-- C3's counterexample local row: an unscheduled todo task. -/
def c3Task : Task :=
  { id := 1, title := "T", notes := none, start := none,
    duration_minutes := none, priority := 0, status := "todo",
    gcal_event_id := none, gcal_etag := none, gcal_updated := none,
    gtasks_id := none, gtasks_updated := none,
    created_at := 0, updated_at := 50 }

/-- C3's counterexample mapping row: dirty. -/
def c3Mapping : SyncMapUndated :=
  { task_id := "1", gtask_id := some "g1", tasklist_id := "tl",
    updated_at_utc := 50, dirty_flag := 1 }

/-- C3's counterexample remote item: completed on the remote side. -/
def c3Item : RemoteItem :=
  { id := some "g1", title := some "T", notes := none, detected_meta := none,
    updated := some 60, status := some "completed" }

def c3State : UndatedState :=
  { tasks := [c3Task], mappings := [c3Mapping], index_tasks := [],
    index_dirty := false }

/-- C7's fixture mapping with a stale revision marker. -/
def c7Mapping : TaskSyncMapping :=
  { local_id := 1, google_task_id := some "g1", tasklist_id := some "tl",
    etag := some "etag-old", updated_at_utc := 40 }

/-- C7's freshly fetched remote state, newer than the local row. -/
def c7Fetched : GTaskItem :=
  { id := some "g1", deleted := false, status := none, updated := some 50,
    title := some "R", notes := some "n", due := none, etag := some "etag-new" }

/-- The same fetched state but older than the local row. -/
def c7FetchedOld : GTaskItem :=
  { c7Fetched with updated := some 40 }

def c7St : TSState :=
  { tasks := [taskUnsched], mappings := [c7Mapping] }

/-- C6's fixture token file holding a live calendar sync token. -/
def c6Store : FileState :=
  .content (.obj [(kCalendar, Json.obj [(kSyncToken, Json.str "tok1")])])

def c6State : EngineState := { repo := [], queue := ⟨[], 0⟩, store := c6Store }

/-- The token file after C6's recovery pass. -/
def c6FinalStore : FileState :=
  set_tasks_pull_timestamp
    (set_calendar_pull_timestamp
      (set_calendar_token (clear_calendar_token c6Store) "tok2") 10000000)
    10000000

/-- The task row after the calendar pull-merge overwrite branch of
`_apply_calendar_event`. -/
def cal_merged (now : Nat) (ev : GEvent) (e : String) (t : Task) : Task :=
  { t with title := py_or_str ev.summary defaultEventTitle,
           notes := str_or_none ev.notes,
           start := ev.startTime,
           duration_minutes := duration_minutes_of ev.startTime ev.endTime,
           gcal_event_id := some e, gcal_etag := ev.etag,
           gcal_updated := some (ev.updated.getD now),
           updated_at := ev.updated.getD now }

/-- The task row after the tasks pull-merge overwrite branch of
`_apply_task_entry`. -/
def tasks_merged (now : Nat) (entry : GTaskItem) (g : String) (t : Task) : Task :=
  { t with title := py_or_str entry.title defaultEventTitle,
           notes := py_or_none entry.notes,
           start := entry.due.map day_floor,
           duration_minutes := none,
           gtasks_id := some g,
           gtasks_updated := some (entry.updated.getD now),
           gcal_event_id := if !is_scheduled t then none else t.gcal_event_id,
           updated_at := entry.updated.getD now }

/-- The task row after the cancelled-event branch of
`_apply_calendar_event`: schedule cleared, link stripped, row kept. -/
def cal_cancelled (now : Nat) (ev : GEvent) (t : Task) : Task :=
  { t with start := none, duration_minutes := none, gcal_event_id := none,
           gcal_etag := none, gcal_updated := some (ev.updated.getD now),
           updated_at := ev.updated.getD now }

/-- C1's witness event for the remote-wins branch: revision 60, newer than
`taskUnsched`'s recorded remote revision 50 and local `updated_at` 45. -/
def c1CalEv : GEvent :=
  { id := some "e1", status := none, summary := some "S", etag := some "et9",
    updated := some 60, startTime := some 7200, endTime := some 10800,
    notes := "nn" }

/-- C1's witness task for the local-wins branch (local 50, known remote 10). -/
def c1TaskB : Task :=
  { c1Task with updated_at := 50 }

/-- C1's witness entry for the local-wins branch (remote revision 20). -/
def c1EntryB : GTaskItem :=
  { c1Entry with updated := some 20 }

/-- C2's witness cancelled calendar event. -/
def c2CalEv : GEvent :=
  { id := some "e1", status := some statusCancelled, summary := none,
    etag := none, updated := some 60, startTime := none, endTime := none,
    notes := "" }

/-- The task row as a processed `gcal_delete` leaves it. -/
def gcal_link_cleared (now : Nat) (t : Task) : Task :=
  { t with gcal_event_id := none, gcal_etag := none, gcal_updated := some now,
           updated_at := now }

/-- The task row as a processed `gtasks_delete` leaves it. -/
def gtasks_link_cleared (now : Nat) (t : Task) : Task :=
  { t with gtasks_id := none, gtasks_updated := some now, updated_at := now }

/-! ### Association-list lemmas for the token file -/

theorem dget_dset_self (d : JDict) (k : String) (v : Json) :
    dget (dset d k v) k = some v := by
  induction d with
  | nil => simp [dset, dget]
  | cons p rest ih =>
    obtain ⟨k2, v2⟩ := p
    by_cases h : k2 = k
    · simp [dset, dget, h]
    · simp [dset, dget, h, ih]

theorem dget_dset_ne (d : JDict) (k k2 : String) (v : Json) (h : k2 ≠ k) :
    dget (dset d k2 v) k = dget d k := by
  induction d with
  | nil => simp [dset, dget, h]
  | cons p rest ih =>
    obtain ⟨k3, v3⟩ := p
    by_cases h3 : k3 = k2
    · subst h3
      simp [dset, dget, h]
    · simp [dset, dget, h3, ih]

theorem dget_dpop_self (d : JDict) (k : String) :
    dget (dpop d k) k = none := by
  induction d with
  | nil => simp [dpop, dget]
  | cons p rest ih =>
    obtain ⟨k2, v2⟩ := p
    by_cases h : k2 = k
    · simpa [dpop, dget, h] using ih
    · simp [dpop, dget, h, ih]

theorem dget_dpop_ne (d : JDict) (k k2 : String) (h : k2 ≠ k) :
    dget (dpop d k2) k = dget d k := by
  induction d with
  | nil => simp [dpop, dget]
  | cons p rest ih =>
    obtain ⟨k3, v3⟩ := p
    by_cases h3 : k3 = k2
    · subst h3
      have hk : k3 ≠ k := h
      simp [dpop, dget, hk, ih]
    · simp [dpop, dget, h3, ih]

theorem dget_none_of_not_dmem (d : JDict) (k : String) (h : dmem d k = false) :
    dget d k = none := by
  unfold dmem at h
  cases hg : dget d k with
  | none => rfl
  | some v => rw [hg] at h; simp at h

/-! ### Token-storage lemmas -/

theorem dget_step2_ne (d : JDict) (k : String) (h : kSyncToken ≠ k) :
    dget (clear_calendar_step2 d) k = dget d k := by
  unfold clear_calendar_step2
  split
  · exact dget_dpop_ne _ _ _ h
  · rfl

theorem dget_step2_syncToken (d : JDict) :
    dget (clear_calendar_step2 d) kSyncToken = none := by
  unfold clear_calendar_step2
  split
  · exact dget_dpop_self _ _
  · next h => exact dget_none_of_not_dmem _ _ (by simpa using h)

theorem dget_step1_ne (d : JDict) (k : String) (h : kCalendar ≠ k) :
    dget (clear_calendar_step1 d) k = dget d k := by
  unfold clear_calendar_step1
  split
  · split
    · exact dget_dset_ne _ _ _ _ h
    · rfl
  · rfl

theorem dget_step1_calendar (d : JDict) :
    dget (clear_calendar_step1 d) kCalendar =
      (match dget d kCalendar with
       | some (Json.obj cal) =>
           some (.obj (if dmem cal kSyncToken then dpop cal kSyncToken else cal))
       | v => v) := by
  unfold clear_calendar_step1
  split
  · next cal heq =>
    by_cases hm : dmem cal kSyncToken
    · simp only [hm, if_true, dget_dset_self]
    · simp only [hm, if_false]
      exact heq
  · next hne =>
    cases hv : dget d kCalendar with
    | none => rfl
    | some v =>
      cases v with
      | obj cal => exact absurd hv (hne cal)
      | null => rfl
      | str s => rfl
      | num n => rfl

theorem load_clear (f : FileState) :
    load (clear_calendar_token f) =
      clear_calendar_step2 (clear_calendar_step1 (load f)) := rfl

theorem get_calendar_token_congr (a b : FileState)
    (h1 : dget (load a) kCalendar = dget (load b) kCalendar)
    (h2 : dget (load a) kSyncToken = dget (load b) kSyncToken) :
    get_calendar_token a = get_calendar_token b := by
  simp only [get_calendar_token]
  rw [h1, h2]

theorem get_calendar_token_clear (f : FileState) :
    get_calendar_token (clear_calendar_token f) = none := by
  simp only [get_calendar_token, load_clear]
  rw [dget_step2_ne _ _ (by decide), dget_step1_calendar,
      dget_step2_syncToken]
  cases hv : dget (load f) kCalendar with
  | none => rfl
  | some v =>
    cases v with
    | obj cal =>
      by_cases hm : dmem cal kSyncToken
      · simp [hm, dget_dpop_self]
      · simp [hm, dget_none_of_not_dmem _ _ (by simpa using hm)]
    | null => rfl
    | str s => rfl
    | num n => rfl

theorem load_content_obj (d : JDict) : load (.content (.obj d)) = d := rfl

theorem get_calendar_token_set (f : FileState) (tok : String) (h : tok ≠ "") :
    get_calendar_token (set_calendar_token f tok) = some tok := by
  unfold set_calendar_token
  dsimp only
  split
  · next cal heq =>
    have h1 : dget (dset cal kSyncToken (Json.str tok)) kSyncToken =
        some (Json.str tok) := dget_dset_self _ _ _
    simp [get_calendar_token, load_content_obj, dget_dset_self, h1, jtruthy, jstr, h]
  · next v heq _ =>
    simp [get_calendar_token, load_content_obj, dget_dset_self, dget, jtruthy,
      jstr, h]
  · next heq _ =>
    simp [get_calendar_token, load_content_obj, dget_dset_self, dget, jtruthy,
      jstr, h]

theorem get_calendar_token_set_cal_pull (f : FileState) (now : Nat) :
    get_calendar_token (set_calendar_pull_timestamp f now) = get_calendar_token f := by
  unfold set_calendar_pull_timestamp
  dsimp only
  split
  · next cal heq =>
    have h1 : dget (dset cal kLastPullAt (Json.num now)) kSyncToken =
        dget cal kSyncToken := dget_dset_ne _ _ _ _ (by decide)
    have h2 : dget (dset (load f) kCalendar
        (Json.obj (dset cal kLastPullAt (Json.num now)))) kSyncToken =
        dget (load f) kSyncToken := dget_dset_ne _ _ _ _ (by decide)
    simp [get_calendar_token, load_content_obj, dget_dset_self, h1, h2, heq]
  · next v heq _ =>
    exact get_calendar_token_congr _ _ (by rw [load_content_obj]) (by rw [load_content_obj])
  · next x heq =>
    have h2 : dget (dset (load f) kCalendar
        (Json.obj [(kLastPullAt, Json.num now)])) kSyncToken =
        dget (load f) kSyncToken := dget_dset_ne _ _ _ _ (by decide)
    have h3 : dget [(kLastPullAt, Json.num now)] kSyncToken = none := by
      simp [dget, kLastPullAt, kSyncToken]
    simp [get_calendar_token, load_content_obj, dget_dset_self, h2, h3, heq]

theorem dget_set_tasks_pull_ne (f : FileState) (now : Nat) (k : String)
    (h : kTasks ≠ k) :
    dget (load (set_tasks_pull_timestamp f now)) k = dget (load f) k := by
  unfold set_tasks_pull_timestamp
  dsimp only
  split
  · simp only [load_content_obj]
    exact dget_dset_ne _ _ _ _ h
  · simp only [load_content_obj]
  · simp only [load_content_obj]
    exact dget_dset_ne _ _ _ _ h

theorem get_calendar_token_set_tasks_pull (f : FileState) (now : Nat) :
    get_calendar_token (set_tasks_pull_timestamp f now) = get_calendar_token f :=
  get_calendar_token_congr _ _
    (dget_set_tasks_pull_ne f now kCalendar (by decide))
    (dget_set_tasks_pull_ne f now kSyncToken (by decide))

/-! ### C10 -/

/-- C10: clearing the calendar cursor is frame-preserving — for every stored
token-file state, `clear_calendar_token` removes only the calendar
`syncToken` entry (including the legacy top-level `syncToken` key), while
the tasks `updatedMin` watermark, the tasks and calendar `lastPullAt`
timestamps and the top-level `lastPushAt` read the same values after the
call as before; the calendar token itself reads as absent afterwards. -/
theorem C10_clear_calendar_token_frame (f : FileState) :
    get_tasks_updated_min (clear_calendar_token f) = get_tasks_updated_min f ∧
    get_tasks_pull_timestamp (clear_calendar_token f) = get_tasks_pull_timestamp f ∧
    get_calendar_pull_timestamp (clear_calendar_token f) = get_calendar_pull_timestamp f ∧
    get_last_push_timestamp (clear_calendar_token f) = get_last_push_timestamp f ∧
    get_calendar_token (clear_calendar_token f) = none := by
  have hTasks : dget (load (clear_calendar_token f)) kTasks = dget (load f) kTasks := by
    rw [load_clear, dget_step2_ne _ _ (by decide), dget_step1_ne _ _ (by decide)]
  have hPush : dget (load (clear_calendar_token f)) kLastPushAt =
      dget (load f) kLastPushAt := by
    rw [load_clear, dget_step2_ne _ _ (by decide), dget_step1_ne _ _ (by decide)]
  refine ⟨?_, ?_, ?_, ?_, get_calendar_token_clear f⟩
  · simp only [get_tasks_updated_min]
    rw [hTasks]
  · simp only [get_tasks_pull_timestamp]
    rw [hTasks]
  · simp only [get_calendar_pull_timestamp]
    rw [load_clear, dget_step2_ne _ _ (by decide), dget_step1_calendar]
    cases hv : dget (load f) kCalendar with
    | none => rfl
    | some v =>
      cases v with
      | obj cal =>
        by_cases hm : dmem cal kSyncToken
        · simp only [hm, if_true]
          rw [dget_dpop_ne _ _ _ (by decide)]
        · simp only [hm, if_false]
          simp
      | null => rfl
      | str s => rfl
      | num n => rfl
  · simp only [get_last_push_timestamp]
    rw [hPush]

/-! ### C9 -/

theorem pull_calendar_pages_head (now : Nat) (script : List CalResp)
    (params : CalRequest) (st : EngineState) (c : Bool) :
    (pull_calendar_pages now script params st c).2.2.1.head? = some params := by
  cases script with
  | nil => rfl
  | cons r rest =>
    cases r with
    | httpError s => rfl
    | page p =>
      simp only [pull_calendar_pages]
      cases p.nextPageToken <;> simp

/-- C9: a missing or unparseable token file is non-fatal — both cursor reads
(`get_calendar_token`, `get_tasks_updated_min`) treat it as absent and
return `None`, and the next calendar pull therefore sends no `syncToken`
but the bounded 90-day `timeMin` window. -/
theorem C9_corrupt_cursor_nonfatal (f : FileState)
    (h : f = .missing ∨ f = .corrupt) (now : Nat) (script : List CalResp)
    (st : EngineState) (hst : st.store = f) :
    get_calendar_token f = none ∧
    get_tasks_updated_min f = none ∧
    (pull_calendar true now script st).2.2.head? =
      some { syncToken := none, timeMin := some (now - lookback_seconds),
             pageToken := none } := by
  have htok : get_calendar_token f = none := by
    rcases h with h | h <;> subst h <;> rfl
  have hmin : get_tasks_updated_min f = none := by
    rcases h with h | h <;> subst h <;> rfl
  refine ⟨htok, hmin, ?_⟩
  have hp := pull_calendar_pages_head now script (calendar_params now none) st false
  simp only [pull_calendar, hst, htok]
  rcases hE : pull_calendar_pages now script (calendar_params now none) st false with
    ⟨st2, changed, reqs, err⟩
  rw [hE] at hp
  cases err <;> simpa [calendar_params, truthyS] using hp

/-- Witness for C9 at the concrete missing file. -/
theorem C9_corrupt_cursor_nonfatal_witness :
    get_calendar_token .missing = none ∧
    get_tasks_updated_min .missing = none ∧
    (pull_calendar true 10000000 []
        ⟨[], ⟨[], 0⟩, .missing⟩).2.2.head? =
      some { syncToken := none, timeMin := some (10000000 - lookback_seconds),
             pageToken := none } :=
  C9_corrupt_cursor_nonfatal .missing (Or.inl rfl) 10000000 []
    ⟨[], ⟨[], 0⟩, .missing⟩ rfl

/-! ### C5 -/

/-- C5: `requeue` increments `attempts`, stores the error truncated to 1000
characters, recomputes `next_try_at = now + min(30, 2^attempts)` from the
post-increment count, and never deletes the row; the delay after attempt k
is `min(30, 2^k)` seconds, non-decreasing in k and equal to 30 once
capped. -/
theorem C5_requeue_backoff (q : QueueState) (now op_id : Nat) (error : String)
    (r : PendingOp) (hmem : r ∈ q.ops) (hid : r.id = op_id) :
    (requeue q now op_id error).ops.length = q.ops.length ∧
    { r with attempts := r.attempts + 1,
             last_error := some (error.take 1000),
             next_try_at := next_try now (r.attempts + 1) } ∈
      (requeue q now op_id error).ops ∧
    (∀ k : Nat, next_try now k = now + min 30 (2 ^ k)) ∧
    (∀ k : Nat, next_try now k ≤ next_try now (k + 1)) ∧
    (∀ k : Nat, 5 ≤ k → next_try now k = now + 30) := by
  refine ⟨by simp [requeue], ?_, ?_, ?_, ?_⟩
  · have := List.mem_map_of_mem
      (f := fun r2 : PendingOp =>
        if r2.id == op_id then
          { r2 with attempts := r2.attempts + 1,
                    last_error := some (error.take 1000),
                    next_try_at := next_try now (r2.attempts + 1) }
        else r2) hmem
    simpa [requeue, hid] using this
  · intro k
    simp [next_try]
  · intro k
    have h2 : (2 : Nat) ^ k ≤ 2 ^ (k + 1) :=
      Nat.pow_le_pow_right (by norm_num) (Nat.le_succ k)
    simp only [next_try]
    exact Nat.add_le_add_left (min_le_min (le_refl 30) (by simpa using h2)) now
  · intro k hk
    have h32 : (30 : Nat) ≤ 2 ^ k := by
      calc (30 : Nat) ≤ 32 := by norm_num
        _ = 2 ^ 5 := by norm_num
        _ ≤ 2 ^ k := Nat.pow_le_pow_right (by norm_num) hk
    simp [next_try, Nat.min_eq_left h32]

/-- Witness for C5 at a concrete queued operation. -/
theorem C5_requeue_backoff_witness :
    (requeue ⟨[⟨7, opGcalUpdate, 1, some "e1", none, 3, none, 0, 2⟩], 8⟩
        100 7 "boom").ops.length = 1 ∧
    ({ (⟨7, opGcalUpdate, 1, some "e1", none, 3, none, 0, 2⟩ : PendingOp) with
        attempts := 3 + 1,
        last_error := some ("boom".take 1000),
        next_try_at := next_try 100 (3 + 1) } ∈
      (requeue ⟨[⟨7, opGcalUpdate, 1, some "e1", none, 3, none, 0, 2⟩], 8⟩
        100 7 "boom").ops) ∧
    (∀ k : Nat, next_try 100 k = 100 + min 30 (2 ^ k)) ∧
    (∀ k : Nat, next_try 100 k ≤ next_try 100 (k + 1)) ∧
    (∀ k : Nat, 5 ≤ k → next_try 100 k = 100 + 30) := by
  have h := C5_requeue_backoff
    ⟨[⟨7, opGcalUpdate, 1, some "e1", none, 3, none, 0, 2⟩], 8⟩
    100 7 "boom" ⟨7, opGcalUpdate, 1, some "e1", none, 3, none, 0, 2⟩
    (by simp) rfl
  simpa using h

/-! ### C8 -/

theorem due_singleton (e : PendingOp) (nid now : Nat) (h : e.next_try_at ≤ now) :
    due ⟨[e], nid⟩ now 10 = [e] := by
  simp [due, h]

theorem exec_gcal_delete_404 (env : GEnv) (now nid : Nat) (store : FileState)
    (t : Task) (e : String) (entry : PendingOp)
    (hop : entry.op = opGcalDelete) (hpl : entry.eventId = some e) (he : e ≠ "")
    (htid : entry.task_id = t.id) (hdue : entry.next_try_at ≤ now)
    (hconn : env.cal_connected = true) (h404 : env.cal_delete e = some 404) :
    push_queue_worker env now ⟨[t], ⟨[entry], nid⟩, store⟩ =
      (⟨[gcal_link_cleared now t], ⟨[], nid⟩,
        set_last_push_timestamp store now⟩, 1) := by
  have hdu : due ⟨[entry], nid⟩ now 10 = [entry] := due_singleton entry nid now hdue
  have hvalid : ¬ (opGcalDelete = opGcalCreate) := by decide
  have hvalid2 : ¬ (opGcalDelete = opGcalUpdate) := by decide
  simp [push_queue_worker, hdu, push_queue_worker_go, execute_op, hop, hpl, he,
    htid, hconn, h404, get_task, update_from_sync, remove, truthyS, py_or_opt,
    hvalid, hvalid2, gcal_link_cleared]

theorem exec_gtasks_delete_404 (env : GEnv) (now nid : Nat) (store : FileState)
    (t : Task) (g : String) (entry : PendingOp)
    (hop : entry.op = opGtasksDelete) (hpl : entry.taskId = some g) (hg : g ≠ "")
    (htid : entry.task_id = t.id) (hdue : entry.next_try_at ≤ now)
    (h404 : env.gtasks_delete g = some 404) :
    push_queue_worker env now ⟨[t], ⟨[entry], nid⟩, store⟩ =
      (⟨[gtasks_link_cleared now t], ⟨[], nid⟩,
        set_last_push_timestamp store now⟩, 1) := by
  have hdu : due ⟨[entry], nid⟩ now 10 = [entry] := due_singleton entry nid now hdue
  have h1 : ¬ (opGtasksDelete = opGcalCreate) := by decide
  have h2 : ¬ (opGtasksDelete = opGcalUpdate) := by decide
  have h3 : ¬ (opGtasksDelete = opGcalDelete) := by decide
  have h4 : ¬ (opGtasksDelete = opGtasksCreate) := by decide
  have h5 : ¬ (opGtasksDelete = opGtasksUpdate) := by decide
  simp [push_queue_worker, hdu, push_queue_worker_go, execute_op, hop, hpl, hg,
    htid, h404, get_task, update_from_sync, remove, truthyS, py_or_opt,
    h1, h2, h3, h4, h5, gtasks_link_cleared]

/-- C8: a queued delete whose remote entity is already gone (the remote
delete RPC answers 404) is treated as success — the worker removes the
operation from the queue, the task's backend link (`gcal_event_id` for a
calendar delete, `gtasks_id` for a tasks delete) is cleared, and it is never
recreated by this processing. -/
theorem C8_idempotent_delete :
    (∀ (env : GEnv) (now nid : Nat) (store : FileState) (t : Task) (e : String)
        (entry : PendingOp),
      entry.op = opGcalDelete → entry.eventId = some e → e ≠ "" →
      entry.task_id = t.id → entry.next_try_at ≤ now →
      env.cal_connected = true → env.cal_delete e = some 404 →
      push_queue_worker env now ⟨[t], ⟨[entry], nid⟩, store⟩ =
        (⟨[gcal_link_cleared now t], ⟨[], nid⟩,
          set_last_push_timestamp store now⟩, 1)) ∧
    (∀ (env : GEnv) (now nid : Nat) (store : FileState) (t : Task) (g : String)
        (entry : PendingOp),
      entry.op = opGtasksDelete → entry.taskId = some g → g ≠ "" →
      entry.task_id = t.id → entry.next_try_at ≤ now →
      env.gtasks_delete g = some 404 →
      push_queue_worker env now ⟨[t], ⟨[entry], nid⟩, store⟩ =
        (⟨[gtasks_link_cleared now t], ⟨[], nid⟩,
          set_last_push_timestamp store now⟩, 1)) :=
  ⟨fun env now nid store t e entry hop hpl he htid hdue hconn h404 =>
      exec_gcal_delete_404 env now nid store t e entry hop hpl he htid hdue hconn h404,
   fun env now nid store t g entry hop hpl hg htid hdue h404 =>
      exec_gtasks_delete_404 env now nid store t g entry hop hpl hg htid hdue h404⟩

/-- Witness for C8 at a concrete queue, task and 404-answering remote. -/
theorem C8_idempotent_delete_witness :
    push_queue_worker envDelete404 100 ⟨[taskBoth], ⟨[opDelGcal], 5⟩, .missing⟩ =
      (⟨[gcal_link_cleared 100 taskBoth], ⟨[], 5⟩,
        set_last_push_timestamp .missing 100⟩, 1) ∧
    push_queue_worker envDelete404 100 ⟨[taskBoth], ⟨[opDelGtasks], 5⟩, .missing⟩ =
      (⟨[gtasks_link_cleared 100 taskBoth], ⟨[], 5⟩,
        set_last_push_timestamp .missing 100⟩, 1) :=
  ⟨C8_idempotent_delete.1 envDelete404 100 5 .missing taskBoth "e1" opDelGcal
      rfl rfl (by decide) rfl (by decide) rfl rfl,
   C8_idempotent_delete.2 envDelete404 100 5 .missing taskBoth "g1" opDelGtasks
      rfl rfl (by decide) rfl (by decide) rfl⟩

/-! ### C4 -/

theorem exec_gtasks_delete_ok (env : GEnv) (now : Nat) (st : EngineState)
    (t : Task) (g : String) (entry : PendingOp)
    (hrepo : st.repo = [t]) (hop : entry.op = opGtasksDelete)
    (hpl : entry.taskId = some g) (hg : g ≠ "") (htid : entry.task_id = t.id)
    (hdel : env.gtasks_delete g = none ∨ env.gtasks_delete g = some 404) :
    execute_op env now entry st =
      .ok ({ st with repo := [gtasks_link_cleared now t] }, true) := by
  have h1 : ¬ (opGtasksDelete = opGcalCreate) := by decide
  have h2 : ¬ (opGtasksDelete = opGcalUpdate) := by decide
  have h3 : ¬ (opGtasksDelete = opGcalDelete) := by decide
  have h4 : ¬ (opGtasksDelete = opGtasksCreate) := by decide
  have h5 : ¬ (opGtasksDelete = opGtasksUpdate) := by decide
  rcases hdel with hdel | hdel <;>
    simp [execute_op, hop, hpl, hg, htid, hrepo, hdel, get_task,
      update_from_sync, truthyS, py_or_opt, h1, h2, h3, h4, h5,
      gtasks_link_cleared]

theorem exec_gcal_delete_ok (env : GEnv) (now : Nat) (st : EngineState)
    (t : Task) (e : String) (entry : PendingOp)
    (hrepo : st.repo = [t]) (hop : entry.op = opGcalDelete)
    (hpl : entry.eventId = some e) (he : e ≠ "") (htid : entry.task_id = t.id)
    (hconn : env.cal_connected = true)
    (hdel : env.cal_delete e = none ∨ env.cal_delete e = some 404) :
    execute_op env now entry st =
      .ok ({ st with repo := [gcal_link_cleared now t] }, true) := by
  have h1 : ¬ (opGcalDelete = opGcalCreate) := by decide
  have h2 : ¬ (opGcalDelete = opGcalUpdate) := by decide
  rcases hdel with hdel | hdel <;>
    simp [execute_op, hop, hpl, he, htid, hrepo, hdel, hconn, get_task,
      update_from_sync, truthyS, py_or_opt, h1, h2, gcal_link_cleared]

/-- C4: backend mutual exclusivity through the update hook — for a
previously-unscheduled task that acquired a start, `on_task_updated` queues
a `gtasks_delete` as its first operation, and processing that operation
leaves `gtasks_id = None`, so the task does not carry both a live calendar
and a live tasks link; symmetrically, for a task that became unscheduled the
hook queues a `gcal_delete` whose processing clears the calendar link. -/
theorem C4_backend_mutual_exclusivity :
    (∀ (env : GEnv) (now nid : Nat) (store : FileState) (t : Task) (g : String),
      is_scheduled t = true → t.gtasks_id = some g → g ≠ "" →
      (env.gtasks_delete g = none ∨ env.gtasks_delete g = some 404) →
      ∃ entry st2,
        (on_task_updated true now t.id ⟨[t], ⟨[], nid⟩, store⟩).queue.ops.head? =
          some entry ∧
        entry.op = opGtasksDelete ∧ entry.task_id = t.id ∧ entry.taskId = some g ∧
        execute_op env now entry
            (on_task_updated true now t.id ⟨[t], ⟨[], nid⟩, store⟩) =
          .ok (st2, true) ∧
        get_task st2.repo t.id = some (gtasks_link_cleared now t) ∧
        ((gtasks_link_cleared now t).gtasks_id.isSome &&
          (gtasks_link_cleared now t).gcal_event_id.isSome) = false) ∧
    (∀ (env : GEnv) (now nid : Nat) (store : FileState) (t : Task) (e : String),
      is_scheduled t = false → t.gcal_event_id = some e → e ≠ "" →
      env.cal_connected = true →
      (env.cal_delete e = none ∨ env.cal_delete e = some 404) →
      ∃ entry st2,
        (on_task_updated true now t.id ⟨[t], ⟨[], nid⟩, store⟩).queue.ops.head? =
          some entry ∧
        entry.op = opGcalDelete ∧ entry.task_id = t.id ∧ entry.eventId = some e ∧
        execute_op env now entry
            (on_task_updated true now t.id ⟨[t], ⟨[], nid⟩, store⟩) =
          .ok (st2, true) ∧
        get_task st2.repo t.id = some (gcal_link_cleared now t) ∧
        ((gcal_link_cleared now t).gtasks_id.isSome &&
          (gcal_link_cleared now t).gcal_event_id.isSome) = false) := by
  have hv1 : opGtasksDelete ∈ VALID_OPS := by decide
  have hv2 : opGcalUpdate ∈ VALID_OPS := by decide
  have hv3 : opGcalCreate ∈ VALID_OPS := by decide
  have hv4 : opGcalDelete ∈ VALID_OPS := by decide
  have hv5 : opGtasksUpdate ∈ VALID_OPS := by decide
  have hv6 : opGtasksCreate ∈ VALID_OPS := by decide
  constructor
  · intro env now nid store t g hsched hgt hg hdel
    have htg : truthyS (some g) = true := by simp [truthyS, hg]
    have hrepo : (on_task_updated true now t.id ⟨[t], ⟨[], nid⟩, store⟩).repo = [t] := by
      by_cases hcal : truthyS t.gcal_event_id <;>
        simp [on_task_updated, get_task, hsched, ensure_tasks_delete,
          queue_calendar_sync, hgt, htg, hcal, enqueueOk, enqueue,
          hv1, hv2, hv3]
    have hhead : (on_task_updated true now t.id ⟨[t], ⟨[], nid⟩, store⟩).queue.ops.head? =
        some ⟨nid, opGtasksDelete, t.id, none, some g, 0, none, now, now⟩ := by
      by_cases hcal : truthyS t.gcal_event_id <;>
        simp [on_task_updated, get_task, hsched, ensure_tasks_delete,
          queue_calendar_sync, hgt, htg, hcal, enqueueOk, enqueue,
          hv1, hv2, hv3]
    refine ⟨⟨nid, opGtasksDelete, t.id, none, some g, 0, none, now, now⟩,
      _, hhead, rfl, rfl, rfl,
      exec_gtasks_delete_ok env now _ t g _ hrepo rfl rfl hg rfl hdel, ?_, ?_⟩
    · simp [get_task, gtasks_link_cleared]
    · simp [gtasks_link_cleared]
  · intro env now nid store t e hsched hge he hconn hdel
    have hte : truthyS (some e) = true := by simp [truthyS, he]
    have hrepo : (on_task_updated true now t.id ⟨[t], ⟨[], nid⟩, store⟩).repo = [t] := by
      by_cases htsk : truthyS t.gtasks_id <;>
        simp [on_task_updated, get_task, hsched, ensure_calendar_delete,
          queue_tasks_sync, hge, hte, htsk, enqueueOk, enqueue,
          hv4, hv5, hv6]
    have hhead : (on_task_updated true now t.id ⟨[t], ⟨[], nid⟩, store⟩).queue.ops.head? =
        some ⟨nid, opGcalDelete, t.id, some e, none, 0, none, now, now⟩ := by
      by_cases htsk : truthyS t.gtasks_id <;>
        simp [on_task_updated, get_task, hsched, ensure_calendar_delete,
          queue_tasks_sync, hge, hte, htsk, enqueueOk, enqueue,
          hv4, hv5, hv6]
    refine ⟨⟨nid, opGcalDelete, t.id, some e, none, 0, none, now, now⟩,
      _, hhead, rfl, rfl, rfl,
      exec_gcal_delete_ok env now _ t e _ hrepo rfl rfl he rfl hconn hdel, ?_, ?_⟩
    · simp [get_task, gcal_link_cleared]
    · simp [gcal_link_cleared]

/-- Witness for C4 at concrete tasks and a 404-answering remote. -/
theorem C4_backend_mutual_exclusivity_witness :
    (∃ entry st2,
        (on_task_updated true 100 taskBoth.id ⟨[taskBoth], ⟨[], 5⟩, .missing⟩).queue.ops.head? =
          some entry ∧
        entry.op = opGtasksDelete ∧ entry.task_id = taskBoth.id ∧
        entry.taskId = some "g1" ∧
        execute_op envDelete404 100 entry
            (on_task_updated true 100 taskBoth.id ⟨[taskBoth], ⟨[], 5⟩, .missing⟩) =
          .ok (st2, true) ∧
        get_task st2.repo taskBoth.id = some (gtasks_link_cleared 100 taskBoth) ∧
        ((gtasks_link_cleared 100 taskBoth).gtasks_id.isSome &&
          (gtasks_link_cleared 100 taskBoth).gcal_event_id.isSome) = false) ∧
    (∃ entry st2,
        (on_task_updated true 100 taskUnsched.id ⟨[taskUnsched], ⟨[], 5⟩, .missing⟩).queue.ops.head? =
          some entry ∧
        entry.op = opGcalDelete ∧ entry.task_id = taskUnsched.id ∧
        entry.eventId = some "e1" ∧
        execute_op envDelete404 100 entry
            (on_task_updated true 100 taskUnsched.id ⟨[taskUnsched], ⟨[], 5⟩, .missing⟩) =
          .ok (st2, true) ∧
        get_task st2.repo taskUnsched.id = some (gcal_link_cleared 100 taskUnsched) ∧
        ((gcal_link_cleared 100 taskUnsched).gtasks_id.isSome &&
          (gcal_link_cleared 100 taskUnsched).gcal_event_id.isSome) = false) :=
  ⟨C4_backend_mutual_exclusivity.1 envDelete404 100 5 .missing taskBoth "g1"
      (by decide) rfl (by decide) (Or.inr rfl),
   C4_backend_mutual_exclusivity.2 envDelete404 100 5 .missing taskUnsched "e1"
      (by decide) rfl (by decide) rfl (Or.inr rfl)⟩

/-! ### C7 -/

/-- C7: revision-conflict resolution on push update — a 412 on the patch is
routed to `_handle_conflict`, which works from the freshly fetched remote
state: if the fetched revision is at least the local `updated_at`, the
remote state is applied to the local task (pull semantics) and no patch is
issued (the local push is dropped); otherwise the remote is overwritten with
the local fields and the `If-Match` precondition of that patch is the
freshly fetched etag, never the stale one. -/
theorem C7_conflict_resolution :
    (∀ (now : Nat) (tlid : Option String) (task : Task)
        (mapping : TaskSyncMapping) (fetched patchResp : GTaskItem)
        (st : TSState) (r : Nat),
      fetched.updated = some r → task.updated_at ≤ r →
      handle_conflict now tlid task mapping fetched patchResp st =
        ((apply_remote_task now tlid fetched st).1,
         (apply_remote_task now tlid fetched st).2, none)) ∧
    (∀ (now : Nat) (tlid : Option String) (task : Task)
        (mapping : TaskSyncMapping) (fetched patchResp : GTaskItem)
        (st : TSState) (r : Nat),
      fetched.updated = some r → r < task.updated_at →
      handle_conflict now tlid task mapping fetched patchResp st =
        ({ st with mappings := (ts_upsert_mapping st.mappings task.id
             patchResp.id tlid patchResp.etag (patchResp.updated.getD now)) },
         true,
         some { tasklist := tlid, target := mapping.google_task_id,
                title := py_or_str (some task.title) defaultEventTitle,
                notes := (task.notes.getD "").trim,
                status := statusNeedsAction,
                ifMatch := if truthyS fetched.etag then fetched.etag else none })) ∧
    (∀ (now : Nat) (tlid : Option String) (task : Task)
        (mapping : TaskSyncMapping)
        (insertResp fetched conflictPatchResp : GTaskItem) (st : TSState),
      ts_get_mapping st.mappings task.id = some mapping →
      truthyS mapping.google_task_id = true →
      needs_remote_update task mapping = true →
      push_task now tlid task false (.error 412) insertResp fetched
          conflictPatchResp st =
        .ok ((handle_conflict now tlid task mapping fetched conflictPatchResp st).1,
             (handle_conflict now tlid task mapping fetched conflictPatchResp st).2.1,
             { tasklist := tlid, target := mapping.google_task_id,
               title := py_or_str (some task.title) defaultEventTitle,
               notes := (task.notes.getD "").trim,
               status := statusNeedsAction,
               ifMatch := if truthyS mapping.etag then mapping.etag else none } ::
               (handle_conflict now tlid task mapping fetched conflictPatchResp st).2.2.toList)) := by
  refine ⟨?_, ?_, ?_⟩
  · intro now tlid task mapping fetched patchResp st r hupd hle
    simp [handle_conflict, hupd, hle]
  · intro now tlid task mapping fetched patchResp st r hupd hlt
    simp [handle_conflict, hupd, Nat.not_le.mpr hlt]
  · intro now tlid task mapping insertResp fetched conflictPatchResp st hmap htr hneed
    simp [push_task, hmap, htr, hneed]

/-- Witness for C7 at a concrete conflicting task/mapping pair. -/
theorem C7_conflict_resolution_witness :
    handle_conflict 100 (some "tl") taskUnsched c7Mapping c7Fetched
        emptyGTaskItem c7St =
      ((apply_remote_task 100 (some "tl") c7Fetched c7St).1,
       (apply_remote_task 100 (some "tl") c7Fetched c7St).2, none) ∧
    handle_conflict 100 (some "tl") taskUnsched c7Mapping c7FetchedOld
        emptyGTaskItem c7St =
      ({ c7St with mappings := (ts_upsert_mapping c7St.mappings taskUnsched.id
           emptyGTaskItem.id (some "tl") emptyGTaskItem.etag
           (emptyGTaskItem.updated.getD 100)) },
       true,
       some { tasklist := some "tl", target := c7Mapping.google_task_id,
              title := py_or_str (some taskUnsched.title) defaultEventTitle,
              notes := (taskUnsched.notes.getD "").trim,
              status := statusNeedsAction,
              ifMatch := if truthyS c7FetchedOld.etag then c7FetchedOld.etag
                         else none }) ∧
    push_task 100 (some "tl") taskUnsched false (.error 412) emptyGTaskItem
        c7FetchedOld emptyGTaskItem c7St =
      .ok ((handle_conflict 100 (some "tl") taskUnsched c7Mapping c7FetchedOld
              emptyGTaskItem c7St).1,
           (handle_conflict 100 (some "tl") taskUnsched c7Mapping c7FetchedOld
              emptyGTaskItem c7St).2.1,
           { tasklist := some "tl", target := c7Mapping.google_task_id,
             title := py_or_str (some taskUnsched.title) defaultEventTitle,
             notes := (taskUnsched.notes.getD "").trim,
             status := statusNeedsAction,
             ifMatch := if truthyS c7Mapping.etag then c7Mapping.etag
                        else none } ::
             (handle_conflict 100 (some "tl") taskUnsched c7Mapping c7FetchedOld
                emptyGTaskItem c7St).2.2.toList) :=
  ⟨C7_conflict_resolution.1 100 (some "tl") taskUnsched c7Mapping c7Fetched
      emptyGTaskItem c7St 50 rfl (by decide),
   C7_conflict_resolution.2.1 100 (some "tl") taskUnsched c7Mapping c7FetchedOld
      emptyGTaskItem c7St 40 rfl (by decide),
   C7_conflict_resolution.2.2 100 (some "tl") taskUnsched c7Mapping emptyGTaskItem
      c7FetchedOld emptyGTaskItem c7St (by decide) (by decide) (by decide)⟩

/-! ### C6 -/

theorem pull_calendar_err (now s : Nat) (st : EngineState) (tok0 : String)
    (htok : get_calendar_token st.store = some tok0) (h0 : tok0 ≠ "") :
    pull_calendar true now [.httpError s] st =
      (st, .err s, [⟨some tok0, none, none⟩]) := by
  simp [pull_calendar, htok, calendar_params, truthyS, h0, pull_calendar_pages]

theorem pull_calendar_empty_page (now : Nat) (newTok : String) (st : EngineState)
    (htok : get_calendar_token st.store = none) :
    pull_calendar true now [.page ⟨[], none, some newTok⟩] st =
      ({ st with store := (set_calendar_pull_timestamp
           (set_calendar_token st.store newTok) now) },
       .ok false, [⟨none, some (now - lookback_seconds), none⟩]) := by
  simp [pull_calendar, htok, calendar_params, truthyS, pull_calendar_pages,
    apply_events]

theorem pull_tasks_empty (now : Nat) (st : EngineState) :
    pull_tasks (fun _ => []) now st =
      ({ st with store := set_tasks_pull_timestamp st.store now }, false,
       get_tasks_updated_min st.store) := by
  simp [pull_tasks]

/-- C6: cursor-expiry recovery — when the calendar pull fails with 410, the
engine clears the calendar token once and retries the calendar pull exactly
once; the retry carries no `syncToken` and only the bounded 90-day `timeMin`
window, and the fresh `nextSyncToken` of its final page is persisted.
Should the retry itself fail again, the error propagates after those same
two list calls — there is no retry loop. -/
theorem C6_cursor_expiry_recovery :
    (∀ (now : Nat) (st : EngineState) (tok0 newTok : String),
      get_calendar_token st.store = some tok0 → tok0 ≠ "" → newTok ≠ "" →
      pull_all true true now [.httpError 410] [.page ⟨[], none, some newTok⟩]
          (fun _ => []) st =
        ({ st with store := (set_tasks_pull_timestamp
             (set_calendar_pull_timestamp
               (set_calendar_token (clear_calendar_token st.store) newTok) now) now) },
         .ok false,
         [⟨some tok0, none, none⟩, ⟨none, some (now - lookback_seconds), none⟩]) ∧
      get_calendar_token
          (set_tasks_pull_timestamp
            (set_calendar_pull_timestamp
              (set_calendar_token (clear_calendar_token st.store) newTok) now) now) =
        some newTok) ∧
    (∀ (now : Nat) (st : EngineState) (tok0 : String),
      get_calendar_token st.store = some tok0 → tok0 ≠ "" →
      pull_all true true now [.httpError 410] [.httpError 410]
          (fun _ => []) st =
        ({ st with store := clear_calendar_token st.store }, .err 410,
         [⟨some tok0, none, none⟩, ⟨none, some (now - lookback_seconds), none⟩]) ∧
      get_calendar_token (clear_calendar_token st.store) = none) := by
  constructor
  · intro now st tok0 newTok htok h0 hn
    have h1 := pull_calendar_err now 410 st tok0 htok h0
    have h2 := pull_calendar_empty_page now newTok
      { st with store := clear_calendar_token st.store }
      (get_calendar_token_clear st.store)
    constructor
    · simp [pull_all, h1, h2, pull_tasks_empty]
    · rw [get_calendar_token_set_tasks_pull, get_calendar_token_set_cal_pull,
        get_calendar_token_set _ newTok hn]
  · intro now st tok0 htok h0
    have h1 := pull_calendar_err now 410 st tok0 htok h0
    have hc : get_calendar_token
        (({ st with store := clear_calendar_token st.store } : EngineState).store) =
        none := get_calendar_token_clear st.store
    have h2 := pull_calendar_err now 410 { st with store := clear_calendar_token st.store }
    constructor
    · simp only [pull_all, h1]
      have h3 : pull_calendar true now [.httpError 410]
          { st with store := clear_calendar_token st.store } =
          ({ st with store := clear_calendar_token st.store }, .err 410,
           [⟨none, some (now - lookback_seconds), none⟩]) := by
        simp [pull_calendar, hc, calendar_params, truthyS, pull_calendar_pages]
      simp [h3]
    · exact get_calendar_token_clear st.store

/-! ### C1 -/

/-- C1 counterexample: a remote item whose revision (7) is at or above the
local `updated_at` (5) but at or below the recorded last-known remote
revision (`gtasks_updated = 10`) is skipped entirely by the idempotence
guard — the local fields are left unchanged (title stays "A", not the
remote "B"), contradicting the claim that `T2 ≥ T1` always overwrites. -/
theorem C1_counterexample :
    c1Task.updated_at ≤ c1Entry.updated.getD 100 ∧
    get_by_gtasks_id c1State.repo "g1" = some c1Task ∧
    apply_task_entry 100 c1Entry c1State = (c1State, false) ∧
    c1Task.title ≠ py_or_str c1Entry.title defaultEventTitle := by
  refine ⟨by decide, by rfl, by rfl, by decide⟩

/-- C1 (amended): last-writer-wins pull convergence holds once the remote
revision also passes the idempotence guard (it must be strictly newer than
the recorded `gcal_updated`/`gtasks_updated`): then remote ≥ local
overwrites the local fields from the remote item, and local > remote leaves
the row unchanged and enqueues a push operation for that task; an item
failing the guard is skipped with neither an overwrite nor a push. -/
theorem C1_lww_amended :
    (∀ (now nid : Nat) (store : FileState) (q0 : List PendingOp) (ev : GEvent)
        (t : Task) (e : String),
      ev.id = some e → e ≠ "" → ev.status ≠ some statusCancelled →
      t.gcal_event_id = some e →
      not_newer_than_known (ev.updated.getD now) t.gcal_updated = false →
      ((t.updated_at ≤ ev.updated.getD now →
        apply_calendar_event now ev ⟨[t], ⟨q0, nid⟩, store⟩ =
          (⟨[cal_merged now ev e t], ⟨q0, nid⟩, store⟩, true)) ∧
       (ev.updated.getD now < t.updated_at →
        apply_calendar_event now ev ⟨[t], ⟨q0, nid⟩, store⟩ =
          (⟨[t], ⟨q0 ++ [⟨nid, opGcalUpdate, t.id, some e, none, 0, none, now, now⟩],
               nid + 1⟩, store⟩, false)))) ∧
    (∀ (now nid : Nat) (store : FileState) (q0 : List PendingOp)
        (entry : GTaskItem) (t : Task) (g : String),
      entry.id = some g → g ≠ "" → entry.deleted = false →
      entry.status ≠ some statusDeleted → t.gtasks_id = some g →
      not_newer_than_known (entry.updated.getD now) t.gtasks_updated = false →
      ((t.updated_at ≤ entry.updated.getD now →
        apply_task_entry now entry ⟨[t], ⟨q0, nid⟩, store⟩ =
          (⟨[tasks_merged now entry g t], ⟨q0, nid⟩, store⟩, true)) ∧
       (entry.updated.getD now < t.updated_at →
        apply_task_entry now entry ⟨[t], ⟨q0, nid⟩, store⟩ =
          (⟨[t], ⟨q0 ++ [⟨nid, opGtasksUpdate, t.id, none, some g, 0, none, now, now⟩],
               nid + 1⟩, store⟩, false)))) := by
  have hvU : opGcalUpdate ∈ VALID_OPS := by decide
  have hvT : opGtasksUpdate ∈ VALID_OPS := by decide
  constructor
  · intro now nid store q0 ev t e hid he hstat hlink hguard
    have hte : truthyS (some e) = true := by simp [truthyS, he]
    constructor
    · intro hle
      simp [apply_calendar_event, hid, he, hstat, hlink, hguard, hte,
        get_by_event_id, get_task, update_from_sync, cal_merged, hle]
    · intro hlt
      simp [apply_calendar_event, hid, he, hstat, hlink, hguard, hte,
        get_by_event_id, get_task, queue_calendar_sync, enqueueOk, enqueue,
        hvU, Nat.not_le.mpr hlt]
  · intro now nid store q0 entry t g hid hg hdel hstat hlink hguard
    have htg : truthyS (some g) = true := by simp [truthyS, hg]
    constructor
    · intro hle
      simp [apply_task_entry, hid, hg, hdel, hstat, hlink, hguard, htg,
        get_by_gtasks_id, get_task, update_from_sync, tasks_merged, hle]
    · intro hlt
      simp [apply_task_entry, hid, hg, hdel, hstat, hlink, hguard, htg,
        get_by_gtasks_id, get_task, queue_tasks_sync, enqueueOk, enqueue,
        hvT, Nat.not_le.mpr hlt]

/-- Witness for C1's amended claim: the remote-wins branch on a calendar
event and the local-wins branch on a tasks entry. -/
theorem C1_lww_amended_witness :
    apply_calendar_event 100 c1CalEv ⟨[taskUnsched], ⟨[], 0⟩, .missing⟩ =
      (⟨[cal_merged 100 c1CalEv "e1" taskUnsched], ⟨[], 0⟩, .missing⟩, true) ∧
    apply_task_entry 100 c1EntryB ⟨[c1TaskB], ⟨[], 3⟩, .missing⟩ =
      (⟨[c1TaskB], ⟨[⟨3, opGtasksUpdate, 1, none, some "g1", 0, none, 100, 100⟩],
           4⟩, .missing⟩, false) :=
  ⟨(C1_lww_amended.1 100 0 .missing [] c1CalEv taskUnsched "e1" rfl (by decide)
      (by decide) rfl (by decide)).1 (by decide),
   (C1_lww_amended.2 100 3 .missing [] c1EntryB c1TaskB "g1" rfl (by decide)
      rfl (by decide) rfl (by decide)).2 (by decide)⟩

/-! ### C2 -/

/-- C2 counterexample: a remote-deleted Google Tasks entry that resolves to
an existing linked local task hard-deletes the local row — after the pull
pass the repository is empty, contradicting the claim that the local task
row still exists for the tasks backend. -/
theorem C2_counterexample :
    taskUnsched.gtasks_id = some "g1" ∧
    get_by_gtasks_id c2State.repo "g1" = some taskUnsched ∧
    (apply_task_entry 100 c2Entry c2State).1.repo = [] ∧
    get_task (apply_task_entry 100 c2Entry c2State).1.repo taskUnsched.id = none := by
  refine ⟨by rfl, by rfl, by rfl, by rfl⟩

/-- C2 (amended): remote deletion handling differs per backend — a
cancelled calendar event never hard-deletes the linked local task: the row
survives with its schedule cleared and its calendar link stripped; but a
deleted tasks-backend entry hard-deletes the linked local task row
(`delete_from_sync`). -/
theorem C2_remote_delete_amended :
    (∀ (now nid : Nat) (store : FileState) (q0 : List PendingOp) (ev : GEvent)
        (t : Task) (e : String),
      ev.id = some e → e ≠ "" → ev.status = some statusCancelled →
      t.gcal_event_id = some e →
      (apply_calendar_event now ev ⟨[t], ⟨q0, nid⟩, store⟩).1.repo =
          [cal_cancelled now ev t] ∧
      get_task (apply_calendar_event now ev ⟨[t], ⟨q0, nid⟩, store⟩).1.repo t.id =
          some (cal_cancelled now ev t) ∧
      (apply_calendar_event now ev ⟨[t], ⟨q0, nid⟩, store⟩).2 = true) ∧
    (∀ (now nid : Nat) (store : FileState) (q0 : List PendingOp)
        (entry : GTaskItem) (t : Task) (g : String),
      entry.id = some g → g ≠ "" →
      (entry.deleted || entry.status = some statusDeleted) = true →
      t.gtasks_id = some g →
      (apply_task_entry now entry ⟨[t], ⟨q0, nid⟩, store⟩).1.repo = [] ∧
      (apply_task_entry now entry ⟨[t], ⟨q0, nid⟩, store⟩).2 = true) := by
  have hvTC : opGtasksCreate ∈ VALID_OPS := by decide
  have hvTU : opGtasksUpdate ∈ VALID_OPS := by decide
  constructor
  · intro now nid store q0 ev t e hid he hstat hlink
    have hte : truthyS (some e) = true := by simp [truthyS, he]
    by_cases htsk : truthyS t.gtasks_id <;>
      simp [apply_calendar_event, hid, he, hstat, hlink, hte, htsk,
        get_by_event_id, get_task, update_from_sync, cal_cancelled,
        queue_tasks_sync, enqueueOk, enqueue, hvTC, hvTU]
  · intro now nid store q0 entry t g hid hg hdel hlink
    have htg : truthyS (some g) = true := by simp [truthyS, hg]
    simp [apply_task_entry, hid, hg, hdel, hlink, htg,
      get_by_gtasks_id, get_task, delete_from_sync]

/-- Witness for C2's amended claim at a concrete cancelled event and a
concrete deleted tasks entry. -/
theorem C2_remote_delete_amended_witness :
    ((apply_calendar_event 100 c2CalEv ⟨[taskBoth], ⟨[], 0⟩, .missing⟩).1.repo =
        [cal_cancelled 100 c2CalEv taskBoth] ∧
      get_task (apply_calendar_event 100 c2CalEv
          ⟨[taskBoth], ⟨[], 0⟩, .missing⟩).1.repo taskBoth.id =
        some (cal_cancelled 100 c2CalEv taskBoth) ∧
      (apply_calendar_event 100 c2CalEv ⟨[taskBoth], ⟨[], 0⟩, .missing⟩).2 = true) ∧
    ((apply_task_entry 100 c2Entry ⟨[taskUnsched], ⟨[], 0⟩, .missing⟩).1.repo = [] ∧
      (apply_task_entry 100 c2Entry ⟨[taskUnsched], ⟨[], 0⟩, .missing⟩).2 = true) :=
  ⟨C2_remote_delete_amended.1 100 0 .missing [] c2CalEv taskBoth "e1" rfl
      (by decide) rfl rfl,
   C2_remote_delete_amended.2 100 0 .missing [] c2Entry taskUnsched "g1" rfl
      (by decide) (by decide) rfl⟩

/-! ### C3 -/

theorem task_ite_frame {c : Prop} [Decidable c] (now : Nat) (t : Task)
    (s : String) (p : Int) :
    (if c then ({ t with status := s, priority := p, updated_at := now }, true)
      else (t, false)).1.id = t.id ∧
    (if c then ({ t with status := s, priority := p, updated_at := now }, true)
      else (t, false)).1.title = t.title ∧
    (if c then ({ t with status := s, priority := p, updated_at := now }, true)
      else (t, false)).1.notes = t.notes ∧
    (if c then ({ t with status := s, priority := p, updated_at := now }, true)
      else (t, false)).1.start = t.start := by
  split <;> simp

theorem apply_meta_to_task_frame (now : Nat) (t : Task) (e : MetaEntry)
    (item : RemoteItem) :
    (apply_meta_to_task now t e item).1.id = t.id ∧
    (apply_meta_to_task now t e item).1.title = t.title ∧
    (apply_meta_to_task now t e item).1.notes = t.notes ∧
    (apply_meta_to_task now t e item).1.start = t.start := by
  unfold apply_meta_to_task
  dsimp only
  exact task_ite_frame now t _ _

/-- C3 counterexample: with a dirty mapping (`dirty_flag = 1`), a pull pass
still applies the remote metadata to the local row — the remotely-completed
item flips the local status from "todo" to "done" and bumps `updated_at`,
so not every field of the dirty task is left unchanged. -/
theorem C3_counterexample :
    c3Mapping.dirty_flag = 1 ∧
    c3Task.status = statusTodo ∧
    (undated_pull 100 "tl" "dev" (some [c3Item]) c3State).1.tasks =
      [{ c3Task with status := statusDone, updated_at := 100 }] :=
  ⟨rfl, rfl, by rfl⟩

/-- C3 (amended): the dirty flag suppresses only the remote *payload*
during a pull — the dirty task's `title`, `notes` and `start` are left
unchanged and the mapping stays dirty — while the metadata application step
(status/priority from the index entry) still runs; and a successful push of
a dirty unscheduled task always resets `dirty_flag` to 0, whatever the
remote write returned. -/
theorem C3_dirty_suppression_amended :
    (∀ (now : Nat) (device g : String) (t : Task) (m : SyncMapUndated)
        (ix : List (String × MetaEntry)) (d0 : Bool) (item : RemoteItem),
      item.id = some g → g ≠ "" →
      py_int m.task_id = some t.id → m.gtask_id = some g →
      ¬ m.dirty_flag = 0 →
      ∃ t2, (undated_pull now m.tasklist_id device (some [item])
          ⟨[t], [m], ix, d0⟩).1.tasks = [t2] ∧
        t2.id = t.id ∧ t2.title = t.title ∧ t2.notes = t.notes ∧
        t2.start = t.start ∧
        (undated_pull now m.tasklist_id device (some [item])
            ⟨[t], [m], ix, d0⟩).1.mappings =
          [{ m with updated_at_utc := now }]) ∧
    (∀ (now : Nat) (device gid : String)
        (upsert : UpsertPayload → Option String) (t : Task)
        (m : SyncMapUndated) (ix : List (String × MetaEntry)) (d0 : Bool),
      t.start = none → m.task_id = toString t.id →
      ¬ m.dirty_flag = 0 →
      upsert { gtask_id := m.gtask_id, title := t.title, notes := t.notes,
               status := t.status, updated_at := t.updated_at } = some gid →
      (undated_push_dirty now m.tasklist_id device upsert
          ⟨[t], [m], ix, d0⟩).1.mappings =
        [{ m with gtask_id := some gid, dirty_flag := 0,
                  updated_at_utc := now }] ∧
      (undated_push_dirty now m.tasklist_id device upsert
          ⟨[t], [m], ix, d0⟩).2 = true) := by
  constructor
  · intro now device g t m ix d0 item hid hg htid hmg hd
    have htr : truthyS item.id = true := by rw [hid]; simp [truthyS, hg]
    have htg : truthyS (some g) = true := by simp [truthyS, hg]
    have hfind : find_mapping_by_gtask [m] m.tasklist_id g = some m := by
      simp [find_mapping_by_gtask, hmg]
    have hload : load_task [t] m.task_id = some t := by
      simp [load_task, htid, get_task]
    cases hix : index_get ix g with
    | some e0 =>
      obtain ⟨hid3, hti, hno, hst⟩ := apply_meta_to_task_frame now t
        ((merge_detected_meta now device e0 (item.detected_meta.getD emptyMeta)
          item.updated).1) item
      refine ⟨(apply_meta_to_task now t
        ((merge_detected_meta now device e0 (item.detected_meta.getD emptyMeta)
          item.updated).1) item).1, ?_, hid3, hti, hno, hst, ?_⟩
      · simp [undated_pull, undated_pull_items, undated_pull_item, htr, htg,
          hid, hfind, hload, hix, hd, store_task, store_mapping, hid3]
      · simp [undated_pull, undated_pull_items, undated_pull_item, htr, htg,
          hid, hfind, hload, hix, hd, store_task, store_mapping, hid3]
    | none =>
      obtain ⟨hid3, hti, hno, hst⟩ := apply_meta_to_task_frame now t
        ((merge_detected_meta now device (new_meta_entry now device)
          (item.detected_meta.getD emptyMeta) item.updated).1) item
      refine ⟨(apply_meta_to_task now t
        ((merge_detected_meta now device (new_meta_entry now device)
          (item.detected_meta.getD emptyMeta) item.updated).1) item).1,
        ?_, hid3, hti, hno, hst, ?_⟩
      · simp [undated_pull, undated_pull_items, undated_pull_item, htr, htg,
          hid, hfind, hload, hix, hd, store_task, store_mapping, hid3]
      · simp [undated_pull, undated_pull_items, undated_pull_item, htr, htg,
          hid, hfind, hload, hix, hd, store_task, store_mapping, hid3]
  · intro now device gid upsert t m ix d0 hstart htid hd hup
    constructor
    · simp [undated_push_dirty, undated_push_items, undated_push_one, hstart,
        htid, hd, hup, store_mapping]
    · simp [undated_push_dirty, undated_push_items, undated_push_one, hstart,
        htid, hd, hup, store_mapping]

/-- Witness for C3's amended claim at a concrete dirty mapping: the pull
leaves title/notes/start alone and keeps the flag, the push resets it. -/
theorem C3_dirty_suppression_amended_witness :
    (∃ t2, (undated_pull 100 c3Mapping.tasklist_id "dev" (some [c3Item])
        ⟨[c3Task], [c3Mapping], [], false⟩).1.tasks = [t2] ∧
      t2.id = c3Task.id ∧ t2.title = c3Task.title ∧ t2.notes = c3Task.notes ∧
      t2.start = c3Task.start ∧
      (undated_pull 100 c3Mapping.tasklist_id "dev" (some [c3Item])
          ⟨[c3Task], [c3Mapping], [], false⟩).1.mappings =
        [{ c3Mapping with updated_at_utc := 100 }]) ∧
    ((undated_push_dirty 100 c3Mapping.tasklist_id "dev" (fun _ => some "g2")
        ⟨[c3Task], [c3Mapping], [], false⟩).1.mappings =
      [{ c3Mapping with gtask_id := some "g2", dirty_flag := 0,
                        updated_at_utc := 100 }] ∧
      (undated_push_dirty 100 c3Mapping.tasklist_id "dev" (fun _ => some "g2")
          ⟨[c3Task], [c3Mapping], [], false⟩).2 = true) :=
  ⟨C3_dirty_suppression_amended.1 100 "dev" "g1" c3Task c3Mapping [] false
      c3Item rfl (by decide) (by decide) rfl (by decide),
   C3_dirty_suppression_amended.2 100 "dev" "g2" (fun _ => some "g2") c3Task
      c3Mapping [] false rfl rfl (by decide) rfl⟩

/-- Witness for C6 at a concrete token file holding a live sync token. -/
theorem C6_cursor_expiry_recovery_witness :
    (pull_all true true 10000000 [.httpError 410]
        [.page ⟨[], none, some "tok2"⟩] (fun _ => []) c6State =
      (⟨[], ⟨[], 0⟩, c6FinalStore⟩, .ok false,
       [⟨some "tok1", none, none⟩,
        ⟨none, some (10000000 - lookback_seconds), none⟩])) ∧
    get_calendar_token c6FinalStore = some "tok2" :=
  C6_cursor_expiry_recovery.1 10000000 c6State "tok1" "tok2" rfl
    (by decide) (by decide)

end Planner
